import Mathlib

/-!
# Verification of the Imageflow GIF tool (`src/backend/python/gif_splitter.py`)

This file gives a shallow embedding of the animated-image tool in
`src/backend/python/gif_splitter.py` and proves or refutes the specification
claims about it.

Modelling conventions:

* Python `int` values become `Int`/`Nat`.
* Python `float` arithmetic is modelled by exact rational arithmetic carried
  out on integer numerator/denominator pairs (`PyNum`); the source only
  divides, compares, truncates (`int(...)`) and rounds (`round(...)`) such
  values, and on the inputs relevant here the IEEE double computations of the
  source agree with the exact rational values.
* Python byte strings become `List Nat`, Python strings stay `String`, but
  string primitives (`lower`, `strip`, `split`, `int(str)`) are re-implemented
  over `String.data` so that every definition evaluates inside the kernel.
* The external raster codec (Pillow's pixel decode/encode, octree
  quantization, Lanczos resampling) is out of scope per the spec; the
  pipeline definitions take those stages as explicit function parameters.
* Fallible code returns `Except`/`Option`; `while` loops over a byte buffer
  become fuel-based recursion, where the fuel passed at each call site is an
  upper bound on the number of loop iterations (the loops advance the offset
  by at least 8 bytes per iteration, so `data.length` fuel always suffices).
-/

namespace Imageflow

/-! ## Python value primitives -/

/-- ASCII lower-casing of one character, as Python `str.lower` acts on the
action strings and format names used by the tool (which are ASCII). -/
def lowerChar (c : Char) : Char :=
  if 65 ≤ c.toNat ∧ c.toNat ≤ 90 then Char.ofNat (c.toNat + 32) else c

/-- ASCII upper-casing of one character, for Python `str.upper`. -/
def upperChar (c : Char) : Char :=
  if 97 ≤ c.toNat ∧ c.toNat ≤ 122 then Char.ofNat (c.toNat - 32) else c

/-- Python `s.lower()` on ASCII strings. -/
def pyLower (s : String) : String := String.mk (s.data.map lowerChar)

/-- Python `s.upper()` on ASCII strings. -/
def pyUpper (s : String) : String := String.mk (s.data.map upperChar)

/-- Python whitespace test used by `str.strip()`. -/
def isSpaceChar (c : Char) : Bool :=
  c = ' ' || c = '\t' || c = '\n' || c = '\r' || c = '\x0b' || c = '\x0c'

/-- Python `s.strip()`. -/
def pyStrip (s : String) : String :=
  String.mk (((s.data.dropWhile isSpaceChar).reverse.dropWhile isSpaceChar).reverse)

/-- Split of a character list at every occurrence of `c` (Python
`str.split(sep)` for a one-character separator, which is how the source uses
it). -/
def splitChar (c : Char) : List Char → List (List Char)
  | [] => [[]]
  | x :: xs =>
    let rest := splitChar c xs
    if x = c then [] :: rest
    else
      match rest with
      | [] => [[x]]
      | r :: rs => (x :: r) :: rs

/-- Python `s.split(sep)` for a one-character separator. -/
def pySplit (s : String) (c : Char) : List String := (splitChar c s.data).map String.mk

/-- Python `sep in s` membership test for a one-character needle. -/
def pyContainsChar (s : String) (c : Char) : Bool := s.data.contains c

/-- Python `int(s)`: optional surrounding whitespace, optional sign, at least
one decimal digit; `none` models the `ValueError` raised otherwise.
(Underscore digit grouping, accepted by CPython, is not modelled; the
frame-range grammar of the spec never uses it.) -/
def pyIntParse (s : String) : Option Int :=
  let t := (pyStrip s).data
  let neg := t.headD ' ' = '-'
  let core := if t.headD ' ' = '-' || t.headD ' ' = '+' then t.tail else t
  if core = [] then none
  else if core.all Char.isDigit then
    let n : Nat := core.foldl (fun acc c => acc * 10 + (c.toNat - 48)) 0
    some (if neg then -(n : Int) else (n : Int))
  else none

/-- Python `round(a / b)` on the exact rational `a / b` (for `b > 0`):
round-half-to-even, the rounding mode of Python's `round` on floats. -/
def pyRoundDiv (a b : Int) : Int :=
  let f := a / b
  let r2 := 2 * (a % b)
  if r2 < b then f else if b < r2 then f + 1 else if f % 2 = 0 then f + 0 else f + 1

/-- Python `int(x)` truncation toward zero applied to the exact rational
`a / b`, for `b > 0`. -/
def pyTruncDiv (a b : Int) : Int := a.tdiv b

/-- Exact value of a Python float (or of a JSON number coerced by
`float(...)`), as a fraction `n / d` with positive denominator `d`.  All the
floats the tool manipulates (JSON numbers, the clamping constants) are exact
rationals, and the source only compares, divides and rounds them. -/
structure PyNum where
  n : Int
  d : Int
deriving Repr, DecidableEq

/-- `a ≤ b` on fraction values with positive denominators. -/
def pyNumLe (a b : PyNum) : Bool := decide (a.n * b.d ≤ b.n * a.d)

/-! ## Data model

`RawFrame` is one frame as the generic decode API exposes it: an RGBA pixel
buffer plus the frame-local metadata the source reads
(`frame.info.get("duration")`, `frame.info.get("disposal")` /
`frame.disposal_method`).  A metadata field is `none` when the key is absent
or its value is not an `int` (the source treats both alike through its
`isinstance` guards). -/

/-- One RGBA pixel (channel values 0–255). -/
structure RGBA where
  r : Nat
  g : Nat
  b : Nat
  a : Nat
deriving Repr, DecidableEq

/-- One decoded frame with its frame-local metadata. -/
structure RawFrame where
  pixels : List RGBA
  durationInfo : Option Int
  disposalInfo : Option Int
deriving Repr, DecidableEq

/-- A decoded GIF as `Image.open` exposes it to the tool: the frame sequence,
the canvas size `gif.size`, and the container-level metadata
`gif.info.get("duration")` / `gif.info.get("loop")`. -/
structure GifData where
  frames : List RawFrame
  size : Int × Int
  defaultDurationInfo : Option Int
  loopInfo : Option Int
deriving Repr, DecidableEq

/-- The argument record of a `_save_gif` / `_save_apng` / `_save_webp` call:
exactly the data the writer receives.  `α` is the frame representation
(RGBA buffers for `reverse`/`change_speed`/`build_gif`, quantized frames for
`compress`/`resize`). -/
structure SavedAnim (α : Type) where
  frames : List α
  path : String
  durations : List Int
  loop : Int
  optimize : Bool
  disposalArg : Option (List Int)
  transparencyArg : Option Int
deriving Repr, DecidableEq

/-- The Python exceptions the tool raises and catches. -/
inductive PyError
  | valueError
  | memoryError
deriving Repr, DecidableEq

/-- The JSON response shape (restricted to the fields every response shares:
`success`, and for failures `error` and `error_code`). -/
structure Response where
  success : Bool
  errorCode : Option String
  error : Option String
deriving Repr, DecidableEq

/-- `_error_response(code, message)`. -/
def errorResponse (code message : String) : Response :=
  ⟨false, some code, some message⟩

/-- A success payload, restricted to the shared `success` field. -/
def successResponse : Response := ⟨true, none, none⟩

/-- Observable resource effects of one operation: allocation of a per-frame
quantize/resize working buffer, and the write of the output file. -/
inductive OpEffect
  | allocFrameBuffer
  | writeOutput (path : String)
deriving Repr, DecidableEq

/-! ## Container reader: the GIF extraction paths -/

/-- Per-frame duration resolution shared by `_extract_gif_frames`,
`_extract_gif_frames_with_disposal` and `_extract_animation_frames`:
a frame-local value that is a positive `int` wins, anything else falls back
to the container default. -/
def resolveFrameDuration (defaultDuration : Int) (f : RawFrame) : Int :=
  match f.durationInfo with
  | some d => if d ≤ 0 then defaultDuration else d
  | none => defaultDuration

/-- Per-frame disposal resolution: a frame-local `int` value `≥ 0` wins,
anything else becomes 0. -/
def resolveFrameDisposal (f : RawFrame) : Int :=
  match f.disposalInfo with
  | some d => if d < 0 then 0 else d
  | none => 0

/-- Result of `_extract_gif_frames(gif)` (frames, durations, loop). -/
structure ExtractedGif where
  frames : List (List RGBA)
  durations : List Int
  loop : Int
deriving Repr, DecidableEq

/-- `GIFTool._extract_gif_frames`: copies every frame, resolves each
duration against `gif.info.get("duration", 100)` (note: that container
default is used as-is, without a positivity check), and reads
`gif.info.get("loop", 0)`. -/
def extractGifFrames (g : GifData) : ExtractedGif :=
  let defaultDuration := g.defaultDurationInfo.getD 100
  { frames := g.frames.map RawFrame.pixels
    durations := g.frames.map (resolveFrameDuration defaultDuration)
    loop := g.loopInfo.getD 0 }

/-- Result of `_extract_gif_frames_with_disposal(gif)`. -/
structure ExtractedGifD where
  frames : List (List RGBA)
  durations : List Int
  loop : Int
  disposals : List Int
deriving Repr, DecidableEq

/-- `GIFTool._extract_gif_frames_with_disposal`: like `_extract_gif_frames`
(frames converted to RGBA, which is the identity on our RGBA buffers) but
also collecting the per-frame disposal methods. -/
def extractGifFramesWithDisposal (g : GifData) : ExtractedGifD :=
  let defaultDuration := g.defaultDurationInfo.getD 100
  { frames := g.frames.map RawFrame.pixels
    durations := g.frames.map (resolveFrameDuration defaultDuration)
    loop := g.loopInfo.getD 0
    disposals := g.frames.map resolveFrameDisposal }

/-! ## Frame transforms: reverse and change_speed -/

/-- `GIFTool.reverse_gif` after a successful decode: extracts frames and
durations with `_extract_gif_frames` (note: no disposals), reverses both
lists, and calls `_save_gif(frames, output_path, durations, loop_value)` —
with no `disposal` and no `transparency` argument. -/
def reverseGif (g : GifData) (loopArg : Option Int) (outputPath : String) :
    SavedAnim (List RGBA) :=
  let e := extractGifFrames g
  ⟨e.frames.reverse, outputPath, e.durations.reverse,
    loopArg.getD e.loop, false, none, none⟩

/-- `GIFTool._clamp_speed_factor`: `float(value)` failure (`none`) and
non-positive values normalize to 1.0, then the factor is clamped to
`[0.1, 2.0]` via `max(0.1, min(2.0, factor))`. -/
def clampSpeedFactor (value : Option PyNum) : PyNum :=
  let factor := value.getD ⟨1, 1⟩
  let factor := if factor.n ≤ 0 then (⟨1, 1⟩ : PyNum) else factor
  let factor := if pyNumLe ⟨2, 1⟩ factor then (⟨2, 1⟩ : PyNum) else factor
  if pyNumLe factor ⟨1, 10⟩ then (⟨1, 10⟩ : PyNum) else factor

/-- The per-frame retiming `max(1, int(d / factor))` of `change_speed`;
`d / factor = d * factor.d / factor.n` exactly. -/
def retimeDuration (factor : PyNum) (d : Int) : Int :=
  max 1 (pyTruncDiv (d * factor.d) factor.n)

/-- `GIFTool.change_speed` after a successful decode: extract frames and
durations, clamp the factor, retime every duration, save. -/
def changeSpeedGif (g : GifData) (speedFactor : Option PyNum) (loopArg : Option Int)
    (outputPath : String) : SavedAnim (List RGBA) :=
  let e := extractGifFrames g
  let factor := clampSpeedFactor speedFactor
  ⟨e.frames, outputPath, e.durations.map (retimeDuration factor),
    loopArg.getD e.loop, false, none, none⟩

/-! ## Budget guard -/

/-- `MAX_FRAME_PIXEL_BUDGET`. -/
def MAX_FRAME_PIXEL_BUDGET : Int := 120000000

/-- `GIFTool._assert_frame_pixel_budget(frame_count, size, operation)`:
no-op for a non-positive frame count, `ValueError` for a non-positive
dimension, `MemoryError` when `frame_count * width * height` exceeds the
fixed budget. -/
def assertFramePixelBudget (frameCount : Int) (size : Int × Int) :
    Except PyError Unit :=
  if frameCount ≤ 0 then .ok ()
  else if size.1 ≤ 0 ∨ size.2 ≤ 0 then .error .valueError
  else if frameCount * size.1 * size.2 > MAX_FRAME_PIXEL_BUDGET then .error .memoryError
  else .ok ()

/-! ## Palette quantizer -/

/-- `GIFTool._sanitize_quality`: `int(round(float(value)))` clamped to
`[1, 100]`, with 90 on a failed `float(...)`. -/
def sanitizeQuality (value : Option PyNum) : Int :=
  let quality := match value with
    | some q => pyRoundDiv q.n q.d
    | none => 90
  max 1 (min 100 quality)

/-- `GIFTool._quality_to_palette_size`:
`max(16, min(255, int(round(quality / 100 * 255))))`. -/
def qualityToPaletteSize (quality : Int) : Int :=
  max 16 (min 255 (pyRoundDiv (quality * 255) 100))

/-- The result of quantizing one frame: palette indexes per pixel, the flat
RGB palette, and the recorded transparency index (`quantized.info`). -/
structure QuantizedFrame where
  indexes : List Nat
  palette : List Nat
  transparency : Nat
deriving Repr, DecidableEq

/-- The external codec's bounded-palette quantization
(`rgba.quantize(colors=..., method=FASTOCTREE, dither=FLOYDSTEINBERG)`),
out of scope per the spec: given the RGBA buffer and the color count it
yields one palette index per pixel and a flat RGB palette.  The pipeline
definitions take it as a parameter. -/
def Quantizer : Type := List RGBA → Int → List Nat × List Nat

/-- `GIFTool._quantize_rgba_frame`: take the alpha channel of the
pre-quantization frame, quantize with `max(2, min(255, palette_size))`
colors, pad the palette to 768 bytes (256 RGB entries), build the hard
`alpha ≤ 127` mask, paste index 255 under the mask, and record 255 as the
frame's transparency index. -/
def quantizeRgbaFrame (quantizer : Quantizer) (frame : List RGBA)
    (paletteSize : Int) : QuantizedFrame :=
  let alpha := frame.map RGBA.a
  let colors := max 2 (min 255 paletteSize)
  let q := quantizer frame colors
  let palette := q.2
  let palette :=
    if palette.length < 768 then palette ++ List.replicate (768 - palette.length) 0
    else palette
  let transparentMask := alpha.map (fun a => if a ≤ 127 then (255 : Nat) else 0)
  let indexes := q.1.zipWith (fun idx m => if m = 0 then idx else 255) transparentMask
  ⟨indexes, palette, 255⟩

/-- Modelled from the spec: decoding one pixel of an indexed frame whose
transparency index is set — the external codec renders the transparency
index as a fully transparent pixel ("the palette slot reserved to mean
fully transparent") and every other index as the opaque palette color. -/
def decodeIndexedPixel (qf : QuantizedFrame) (idx : Nat) : RGBA :=
  if idx = qf.transparency then ⟨0, 0, 0, 0⟩
  else
    ⟨qf.palette.getD (idx * 3) 0, qf.palette.getD (idx * 3 + 1) 0,
      qf.palette.getD (idx * 3 + 2) 0, 255⟩

/-- Decode of a whole quantized frame back to RGBA. -/
def decodeIndexedFrame (qf : QuantizedFrame) : List RGBA :=
  qf.indexes.map (decodeIndexedPixel qf)

/-! ## compress -/

/-- `GIFTool.compress_gif` after a successful decode of a GIF: extract with
disposals, assert the frame-pixel budget against `gif.size`, quantize every
frame at the quality-derived palette size, and save with
`optimize=True, disposal=disposals, transparency=255`.  The effect list
records the per-frame quantize buffer allocations and the output write, in
order; a budget failure produces the error before any effect. -/
def compressGifOp (quantizer : Quantizer) (g : GifData) (quality : Option PyNum)
    (loopArg : Option Int) (outputPath : String) :
    Response × Option (SavedAnim QuantizedFrame) × List OpEffect :=
  let e := extractGifFramesWithDisposal g
  match assertFramePixelBudget e.frames.length g.size with
  | .error .memoryError =>
    (errorResponse "GIF_MEMORY_LIMIT" "GIF is too large to process safely", none, [])
  | .error .valueError =>
    (errorResponse "GIF_COMPRESS_FAILED" "Invalid frame size", none, [])
  | .ok _ =>
    let qualityValue := sanitizeQuality quality
    let paletteSize := qualityToPaletteSize qualityValue
    let frames := e.frames.map (fun f => quantizeRgbaFrame quantizer f paletteSize)
    let saved : SavedAnim QuantizedFrame :=
      ⟨frames, outputPath, e.durations, loopArg.getD e.loop, true,
        some e.disposals, some 255⟩
    (successResponse, some saved,
      e.frames.map (fun _ => OpEffect.allocFrameBuffer) ++ [OpEffect.writeOutput outputPath])

/-! ## resize -/

/-- `GIFTool._sanitize_dimension`: `int(round(float(value)))` with 0 on a
failed `float(...)`, clamped below by 0. -/
def sanitizeDimension (value : Option PyNum) : Int :=
  let dim := match value with
    | some q => pyRoundDiv q.n q.d
    | none => 0
  max 0 dim

/-- `GIFTool._resolve_resize_size(source_size, target_width, target_height,
keep_aspect)`: exact-rational rendering of the float arithmetic
(`scale = min(w / srcW, h / srcH)`, `round(src * scale)`, aspect-derived
dimension `round(src * (target / src))`). -/
def resolveResizeSize (src : Int × Int) (targetWidth targetHeight : Int)
    (keepAspect : Bool) : Except PyError (Int × Int) :=
  let sw := src.1
  let sh := src.2
  if sw ≤ 0 ∨ sh ≤ 0 then .error .valueError
  else if !keepAspect then
    .ok (max 1 (if targetWidth > 0 then targetWidth else sw),
      max 1 (if targetHeight > 0 then targetHeight else sh))
  else if targetWidth > 0 ∧ targetHeight > 0 then
    -- scale = min(tw / sw, th / sh); with tw, th > 0 the `scale <= 0` guard
    -- of the source can never fire.
    let scale : PyNum :=
      if pyNumLe ⟨targetWidth, sw⟩ ⟨targetHeight, sh⟩ then ⟨targetWidth, sw⟩
      else ⟨targetHeight, sh⟩
    let scale := if scale.n ≤ 0 then (⟨1, 1⟩ : PyNum) else scale
    .ok (max 1 (pyRoundDiv (sw * scale.n) scale.d),
      max 1 (pyRoundDiv (sh * scale.n) scale.d))
  else if targetWidth > 0 then
    .ok (max 1 targetWidth, max 1 (pyRoundDiv (sh * targetWidth) sw))
  else
    .ok (max 1 (pyRoundDiv (sw * targetHeight) sh), max 1 targetHeight)

/-- The external codec's geometric resampling
(`frame.resize(size, resample=LANCZOS)`), out of scope per the spec: maps an
RGBA buffer from the source size to the target size. -/
def Resampler : Type := List RGBA → (Int × Int) → (Int × Int) → List RGBA

/-- `GIFTool.resize_gif` after a successful decode of a GIF: sanitize the
target dimensions, reject when both are unset, resolve the output size,
assert the frame-pixel budget against the per-axis maximum of the source and
target sizes, then resample and re-quantize every frame (palette size 255)
and save with `disposal=disposals, transparency=255`. -/
def resizeGifOp (quantizer : Quantizer) (resampler : Resampler) (g : GifData)
    (width height : Option PyNum) (maintainAspect : Option Bool)
    (loopArg : Option Int) (outputPath : String) :
    Response × Option (SavedAnim QuantizedFrame) × List OpEffect :=
  let e := extractGifFramesWithDisposal g
  let originalWidth := g.size.1
  let originalHeight := g.size.2
  let targetWidth := sanitizeDimension width
  let targetHeight := sanitizeDimension height
  let keepAspect := maintainAspect.getD true
  if targetWidth ≤ 0 ∧ targetHeight ≤ 0 then
    (errorResponse "GIF_RESIZE_INVALID_SIZE" "Missing width or height for resize", none, [])
  else
    match resolveResizeSize (originalWidth, originalHeight) targetWidth targetHeight keepAspect with
    | .error _ =>
      (errorResponse "GIF_RESIZE_FAILED" "Invalid source GIF size", none, [])
    | .ok resizedSize =>
      match assertFramePixelBudget e.frames.length
          (max originalWidth resizedSize.1, max originalHeight resizedSize.2) with
      | .error .memoryError =>
        (errorResponse "GIF_MEMORY_LIMIT" "GIF is too large to process safely", none, [])
      | .error .valueError =>
        (errorResponse "GIF_RESIZE_FAILED" "Invalid frame size", none, [])
      | .ok _ =>
        let frames := e.frames.map (fun f =>
          quantizeRgbaFrame quantizer
            (resampler f (originalWidth, originalHeight) resizedSize) 255)
        let saved : SavedAnim QuantizedFrame :=
          ⟨frames, outputPath, e.durations, loopArg.getD e.loop, false,
            some e.disposals, some 255⟩
        (successResponse, some saved,
          e.frames.map (fun _ => OpEffect.allocFrameBuffer) ++ [OpEffect.writeOutput outputPath])

/-! ## build_gif -/

/-- `GIFTool._sanitize_fps`: a failed `float(value)` or a non-positive value
gives the default 10.0. -/
def sanitizeFps (value : Option PyNum) : PyNum :=
  let fps := value.getD ⟨10, 1⟩
  if fps.n ≤ 0 then ⟨10, 1⟩ else fps

/-- One loaded still image for `build_gif`: its RGBA content (opaque to this
model) and its size. -/
structure Still where
  content : Nat
  size : Int × Int
deriving Repr, DecidableEq

/-- `GIFTool._choose_canvas_size`: the per-axis maximum of the input sizes,
`(0, 0)` for an empty list. -/
def chooseCanvasSize (sizes : List (Int × Int)) : Int × Int :=
  match sizes with
  | [] => (0, 0)
  | _ =>
    (sizes.foldl (fun acc s => max acc s.1) 0,
     sizes.foldl (fun acc s => max acc s.2) 0)

/-- `GIFTool._pad_to_size`: a frame already at the canvas size is kept,
otherwise it is drawn top-left onto a transparent canvas of that size (the
pixel compositing itself is the external codec's `Image.paste`; the model
keeps the content and records the new size). -/
def padToSize (s : Still) (canvas : Int × Int) : Still :=
  if s.size = canvas then s else ⟨s.content, canvas⟩

/-- `GIFTool.build_gif` after the input images have been loaded and
converted to RGBA: reject an empty path list, compute the uniform duration
`max(1, int(1000 / fps))`, pad every frame to the shared canvas, and save
with the per-frame duration list `[duration] * len(frames)`. -/
def buildGifOp (stills : List Still) (fps : Option PyNum) (loopArg : Int)
    (outputPath : String) : Response × Option (SavedAnim Still) :=
  if stills = [] then
    (errorResponse "GIF_BUILD_NO_INPUT" "No input images provided", none)
  else
    let fpsValue := sanitizeFps fps
    let durationMs := max 1 (pyTruncDiv (1000 * fpsValue.d) fpsValue.n)
    let canvas := chooseCanvasSize (stills.map Still.size)
    let frames := stills.map (fun s => padToSize s canvas)
    (successResponse,
      some ⟨frames, outputPath, List.replicate frames.length durationMs, loopArg,
        false, none, none⟩)

/-! ## The writer's file-system behavior -/

/-- Contents of one file on disk: either a completely encoded animation or
the partial bytes left behind by an encode that failed mid-write. -/
inductive FileContent
  | complete (id : Nat)
  | truncated (id : Nat)
deriving Repr, DecidableEq

/-- The file system, as a map from paths to file contents. -/
def Fs : Type := String → Option FileContent

/-- `GIFTool._save_gif` (and `_save_webp`/`_save_apng`) hand
`output_path` itself to the encoder: `first.save(output_path, ...)`.  The
encoder (out of scope) opens the destination for writing and streams the
encoded bytes into it, so a completed encode leaves the complete file and a
failed encode leaves the partially written bytes — at the destination path,
because no temporary path and no rename are involved anywhere in the source.
`encodeOk` abstracts whether the external encoder completes, `outId` names
the encoded animation. -/
def saveDirectToPath (encodeOk : Bool) (outId : Nat) (path : String) (fs : Fs) :
    Bool × Fs :=
  (encodeOk,
    fun p => if p = path then
        some (if encodeOk then FileContent.complete outId else FileContent.truncated outId)
      else fs p)

/-! ## Raw chunk parsing for WEBP and APNG timing -/

/-- One byte of the buffer; the parsers below only read inside the bounds
they have already checked, so the default 0 is never observable. -/
def readByte (data : List Nat) (i : Nat) : Nat := data.getD i 0

/-- `struct.unpack_from(">I", data, offset)`. -/
def readBE32 (data : List Nat) (off : Nat) : Nat :=
  readByte data off * 16777216 + readByte data (off + 1) * 65536 +
    readByte data (off + 2) * 256 + readByte data (off + 3)

/-- `struct.unpack_from(">H", data, offset)`. -/
def readBE16 (data : List Nat) (off : Nat) : Nat :=
  readByte data off * 256 + readByte data (off + 1)

/-- `struct.unpack_from("<I", data, offset)`. -/
def readLE32 (data : List Nat) (off : Nat) : Nat :=
  readByte data off + readByte data (off + 1) * 256 +
    readByte data (off + 2) * 65536 + readByte data (off + 3) * 16777216

/-- The PNG signature `\x89PNG\r\n\x1a\n`. -/
def pngSignatureBytes : List Nat := [137, 80, 78, 71, 13, 10, 26, 10]

/-- The ASCII bytes of `"fcTL"`. -/
def fcTLBytes : List Nat := [102, 99, 84, 76]

/-- The ASCII bytes of `"RIFF"`, `"WEBP"`, `"ANMF"`. -/
def riffBytes : List Nat := [82, 73, 70, 70]

def webpTagBytes : List Nat := [87, 69, 66, 80]

def anmfBytes : List Nat := [65, 78, 77, 70]

/-- The fcTL delay-to-milliseconds conversion of `_extract_apng_durations`:
denominator 0 is treated as 100, numerator 0 as 1, then
`max(1, int(round(num / den * 1000)))`. -/
def apngDelayToMs (num den : Nat) : Int :=
  let den := if den = 0 then 100 else den
  let num := if num = 0 then 1 else num
  max 1 (pyRoundDiv (num * 1000) den)

/-- The chunk walk of `_extract_apng_durations`: while 12 more bytes remain,
read the big-endian chunk length and the chunk type, stop as soon as a chunk
(plus its 4 CRC bytes) would overrun the buffer, convert the delay fields of
every `fcTL` chunk of length ≥ 26, and step to the next chunk.  The fuel is
an iteration bound: each step advances the offset by `12 + chunkSize ≥ 12`,
so the `data.length + 1` passed at the call site never runs out. -/
def apngDurationsLoop (data : List Nat) : Nat → Nat → List Int
  | _, 0 => []
  | offset, fuel + 1 =>
    if offset + 12 ≤ data.length then
      let chunkSize := readBE32 data offset
      let chunkType := [readByte data (offset + 4), readByte data (offset + 5),
        readByte data (offset + 6), readByte data (offset + 7)]
      let chunkStart := offset + 8
      let chunkEnd := chunkStart + chunkSize
      if chunkEnd + 4 > data.length then []
      else
        let rest := apngDurationsLoop data (chunkEnd + 4) fuel
        if chunkType = fcTLBytes ∧ chunkSize ≥ 26 then
          apngDelayToMs (readBE16 data (chunkStart + 20)) (readBE16 data (chunkStart + 22)) :: rest
        else rest
    else []

/-- The same chunk walk, collecting the raw 16-bit numerator/denominator
pairs of every accepted `fcTL` chunk instead of converted durations.  Used
to state what `_extract_apng_durations` computes per chunk. -/
def apngFcTLPairs (data : List Nat) : Nat → Nat → List (Nat × Nat)
  | _, 0 => []
  | offset, fuel + 1 =>
    if offset + 12 ≤ data.length then
      let chunkSize := readBE32 data offset
      let chunkType := [readByte data (offset + 4), readByte data (offset + 5),
        readByte data (offset + 6), readByte data (offset + 7)]
      let chunkStart := offset + 8
      let chunkEnd := chunkStart + chunkSize
      if chunkEnd + 4 > data.length then []
      else
        let rest := apngFcTLPairs data (chunkEnd + 4) fuel
        if chunkType = fcTLBytes ∧ chunkSize ≥ 26 then
          (readBE16 data (chunkStart + 20), readBE16 data (chunkStart + 22)) :: rest
        else rest
    else []

/-- `GIFTool._extract_apng_durations` over an in-memory byte buffer: check
the PNG signature, walk the chunks, and return the duration list — or `none`
on a bad signature or when no `fcTL` chunk was found (`return durations or
None`).  All reads are bounds-checked before use, so the `except` clause of
the source has nothing left to catch at this level. -/
def extractApngDurations (data : List Nat) : Option (List Int) :=
  if data.length < 8 ∨ data.take 8 ≠ pngSignatureBytes then none
  else
    let durations := apngDurationsLoop data 8 (data.length + 1)
    if durations = [] then none else some durations

/-- The chunk walk of `_extract_webp_durations`: while 8 more bytes remain,
read the chunk id and little-endian chunk size, stop when the chunk overruns
the buffer, collect `max(1, duration)` from the 3-byte little-endian
duration at payload offset 12 of every `ANMF` chunk of size ≥ 16, and step
past the chunk plus its RIFF odd-size pad byte. -/
def webpDurationsLoop (data : List Nat) : Nat → Nat → List Int
  | _, 0 => []
  | offset, fuel + 1 =>
    if offset + 8 ≤ data.length then
      let chunkId := [readByte data offset, readByte data (offset + 1),
        readByte data (offset + 2), readByte data (offset + 3)]
      let chunkSize := readLE32 data (offset + 4)
      let chunkStart := offset + 8
      let chunkEnd := chunkStart + chunkSize
      if chunkEnd > data.length then []
      else
        let rest := webpDurationsLoop data (chunkEnd + chunkSize % 2) fuel
        if chunkId = anmfBytes ∧ chunkSize ≥ 16 then
          let duration := readByte data (chunkStart + 12) +
            readByte data (chunkStart + 13) * 256 + readByte data (chunkStart + 14) * 65536
          max 1 (duration : Int) :: rest
        else rest
    else []

/-- `GIFTool._extract_webp_durations` over an in-memory byte buffer. -/
def extractWebpDurations (data : List Nat) : Option (List Int) :=
  if data.length < 12 ∨ data.take 4 ≠ riffBytes ∨ (data.drop 8).take 4 ≠ webpTagBytes then
    none
  else
    let durations := webpDurationsLoop data 12 (data.length + 1)
    if durations = [] then none else some durations

/-! ## Generic animated extraction -/

/-- A decoded animated image as `Image.open` exposes it to
`_extract_animation_frames`: the container format tag, the frame sequence,
the container-level metadata, and — when a `source_path` was supplied — the
raw file bytes used for the timing correction (`none` models a call without
`source_path`). -/
structure AnimSource where
  format : String
  frames : List RawFrame
  defaultDurationInfo : Option Int
  loopInfo : Option Int
  fileBytes : Option (List Nat)
deriving Repr, DecidableEq

/-- Result of `_extract_animation_frames`. -/
structure ExtractedAnim where
  frames : List (List RGBA)
  durations : List Int
  disposals : List Int
  loop : Int
  format : String
deriving Repr, DecidableEq

/-- The `if parsed and len(parsed) == len(frames): durations = parsed`
merge applied after `_extract_webp_durations` / `_extract_apng_durations`. -/
def mergeParsedDurations (parsed : Option (List Int)) (durations : List Int)
    (frameCount : Nat) : List Int :=
  match parsed with
  | some l => if l ≠ [] ∧ l.length = frameCount then l else durations
  | none => durations

/-- The duration resolution of the per-frame decode loop of
`_extract_animation_frames`: each frame-local positive `int` duration, with
the sanitized container default (`100` when absent, non-`int` or
non-positive — note this path *does* sanitize the default, unlike
`_extract_gif_frames`) as fallback. -/
def decodedAnimDurations (src : AnimSource) : List Int :=
  let default0 := src.defaultDurationInfo.getD 100
  let defaultDuration := if default0 ≤ 0 then 100 else default0
  src.frames.map (resolveFrameDuration defaultDuration)

/-- `GIFTool._extract_animation_frames`: validate the container format,
enforce animation when required, decode every frame to RGBA, resolve
durations and disposals, apply the WEBP then APNG raw-parse timing
corrections when a source path is available and there is more than one
frame, and sanitize the loop count. -/
def extractAnimationFrames (src : AnimSource) (requireAnimated : Bool) :
    Except PyError ExtractedAnim :=
  let fmt := pyUpper src.format
  if ¬(fmt = "GIF" ∨ fmt = "PNG" ∨ fmt = "WEBP") then .error .valueError
  else if requireAnimated ∧ src.frames.length ≤ 1 then .error .valueError
  else
    let frames := src.frames.map RawFrame.pixels
    let durations := decodedAnimDurations src
    let disposals := src.frames.map resolveFrameDisposal
    let durations :=
      match src.fileBytes with
      | some data =>
        if fmt = "WEBP" ∧ frames.length > 1 then
          mergeParsedDurations (extractWebpDurations data) durations frames.length
        else durations
      | none => durations
    let durations :=
      match src.fileBytes with
      | some data =>
        if fmt = "PNG" ∧ frames.length > 1 then
          mergeParsedDurations (extractApngDurations data) durations frames.length
        else durations
      | none => durations
    let loop0 := src.loopInfo.getD 0
    .ok ⟨frames, durations, disposals, if loop0 < 0 then 0 else loop0, fmt⟩

/-! ## Frame-range parsing and export_frames -/

/-- Python `list(range(a, b))`. -/
def intRangeAsc (a b : Int) : List Int :=
  (List.range (b - a).toNat).map (fun k => a + k)

/-- Python `range(a, b, step)` for `step > 0`; the fuel `(b - a).toNat` is an
iteration bound since every iteration advances `a` by `step ≥ 1`. -/
def rangeStepUp (b step : Int) : Int → Nat → List Int
  | _, 0 => []
  | a, fuel + 1 => if a < b then a :: rangeStepUp b step (a + step) fuel else []

/-- Python `range(a, b, step)` for `step < 0`. -/
def rangeStepDown (b step : Int) : Int → Nat → List Int
  | _, 0 => []
  | a, fuel + 1 => if b < a then a :: rangeStepDown b step (a + step) fuel else []

/-- Python `list(range(a, b, step))`; `none` models the `ValueError` raised
for a zero step. -/
def intRangeStep (a b step : Int) : Option (List Int) :=
  if step = 0 then none
  else if 0 < step then some (rangeStepUp b step a (b - a).toNat)
  else some (rangeStepDown b step a (a - b).toNat)

/-- `GIFTool._parse_frame_range(frame_range, total_frames)`: `"all"` or an
empty spec selects every frame; `"start-end"` becomes
`range(start, min(end + 1, total))`; `"start:step"` becomes
`range(start, total, step)`; a bare integer selects one frame; any parse
failure (bad integer, wrong number of parts, zero step) falls back to all
frames. -/
def parseFrameRange (frameRange : String) (totalFrames : Nat) : List Int :=
  let allFrames := intRangeAsc 0 totalFrames
  if frameRange = "" ∨ frameRange = "all" then allFrames
  else if pyContainsChar frameRange '-' then
    match pySplit frameRange '-' with
    | [a, b] =>
      match pyIntParse a, pyIntParse b with
      | some start, some stop => intRangeAsc start (min (stop + 1) (totalFrames : Int))
      | _, _ => allFrames
    | _ => allFrames
  else if pyContainsChar frameRange ':' then
    match pySplit frameRange ':' with
    | [a, b] =>
      match pyIntParse a, pyIntParse b with
      | some start, some step =>
        match intRangeStep start totalFrames step with
        | some l => l
        | none => allFrames
      | _, _ => allFrames
    | _ =>
      match pyIntParse frameRange with
      | some v => [v]
      | none => allFrames
  else
    match pyIntParse frameRange with
    | some v => [v]
    | none => allFrames

/-- `f"{frame_idx:04d}"` for the non-negative indices that survive the
bounds filter. -/
def zeroPad4 (i : Int) : String :=
  let s := toString i.toNat
  if s.length < 4 then String.mk (List.replicate (4 - s.length) '0') ++ s else s

/-- `GIFTool.export_frames` after a successful animated decode: normalize
and validate the output format, parse the frame range, drop out-of-bounds
indices, reject an empty selection before creating any file, and otherwise
name one output file per selected frame.  Returns the response together
with the list of files written. -/
def exportFramesOp (frames : List (List RGBA)) (outputFormat : Option String)
    (frameRange : String) (baseName outputDir : String) : Response × List String :=
  let rawFormat := match outputFormat with
    | some s => if s = "" then "png" else s
    | none => "png"
  let fmt := pyLower rawFormat
  if ¬(fmt = "png" ∨ fmt = "bmp") then
    (errorResponse "GIF_EXPORT_UNSUPPORTED_FORMAT" "Unsupported output format", [])
  else
    let frameCount := frames.length
    let frameIdx := parseFrameRange frameRange frameCount
    let frameIdx := frameIdx.filter (fun i => decide (0 ≤ i) && decide (i < (frameCount : Int)))
    if frameIdx = [] then
      (errorResponse "GIF_EXPORT_EMPTY_SELECTION" "No frames selected for export", [])
    else
      (successResponse,
        frameIdx.map (fun i =>
          outputDir ++ "/" ++ baseName ++ "_frame_" ++ zeroPad4 i ++ "." ++ fmt))

/-! ## Request router -/

/-- Truthiness of an optional string field of the JSON request
(`if not input_path: ...`): absent and empty are both falsy. -/
def truthy (o : Option String) : Bool :=
  match o with
  | some s => !(s == "")
  | none => false

/-- `_normalize_action`: `str(value or "").strip().lower()` pushed through
the synonym table. -/
def normalizeAction (value : Option String) : String :=
  let action := pyLower (pyStrip (value.getD ""))
  if action = "" ∨ action = "split" ∨ action = "export" ∨ action = "export_frames" then
    "export_frames"
  else if action = "reverse" ∨ action = "reverse_gif" then "reverse"
  else if action = "change_speed" ∨ action = "change_frame_rate" ∨ action = "speed" then
    "change_speed"
  else if action = "compress" ∨ action = "compress_gif" then "compress"
  else if action = "resize" ∨ action = "resize_gif" ∨ action = "scale" ∨ action = "scale_gif" then
    "resize"
  else if action = "build" ∨ action = "compose" ∨ action = "combine" ∨ action = "build_gif" ∨
      action = "make_gif" then
    "build_gif"
  else if action = "convert" ∨ action = "convert_animation" ∨ action = "transcode" ∨
      action = "convert_animated" ∨ action = "convert_anim" then
    "convert_animation"
  else if action = "get_frame_count" then "get_frame_count"
  else action

/-- `_build_frame_range_from_request`: an explicit non-empty `frame_range`
wins; otherwise integer `start_frame`/`end_frame` fields (`none` models a
missing or non-`int` value) are rendered as `"all"`, `"start"` or
`"start-end"`; with neither present the answer is `"all"`. -/
def buildFrameRangeFromRequest (frameRange : Option String)
    (startFrame endFrame : Option Int) : String :=
  let fr := pyStrip (frameRange.getD "")
  if fr ≠ "" then fr
  else
    match startFrame, endFrame with
    | none, none => "all"
    | s, e =>
      let startValue := s.getD 0
      let endValue := e.getD 0
      if startValue = 0 ∧ endValue = 0 then "all"
      else if endValue ≤ 0 then toString startValue
      else toString startValue ++ "-" ++ toString endValue

/-- One JSON request, restricted to the fields `handle_request` reads.
Numeric fields hold the exact value `float(...)`/`int(...)` would produce,
`none` standing for an absent or uncoercible value. -/
structure Request where
  action : Option String
  inputPath : Option String
  outputPath : Option String
  outputDir : Option String
  inputPaths : Option (List String)
  outputFormat : Option String
  format : Option String
  frameRange : Option String
  startFrame : Option Int
  endFrame : Option Int
  speedFactor : Option PyNum
  quality : Option PyNum
  width : Option PyNum
  height : Option PyNum
  fps : Option PyNum
  maintainAspect : Option Bool
  loop : Option Int
deriving Repr, DecidableEq

/-- `_coerce_input_paths`. -/
def coerceInputPaths (req : Request) : List String :=
  match req.inputPaths with
  | some paths => paths.filter (fun p => !(p == ""))
  | none =>
    match req.inputPath with
    | some s => if s = "" then [] else [s]
    | none => []

/-- The outcomes of the `GIFTool` method calls `handle_request` dispatches
to.  Each method performs file I/O, so its result is a model parameter; the
`opsWellBehaved` predicate below pins down the response discipline each
method guarantees (the error codes of its `return _error_response(...)`
sites and `except` clauses). -/
structure OpsModel where
  getFrameCount : String → Response
  exportFrames : String → String → String → String → Response
  reverseGif : String → String → Option Int → Response
  changeSpeed : String → String → Option PyNum → Option Int → Response
  compressGif : String → String → Option PyNum → Option Int → Response
  resizeGif : String → String → Option PyNum → Option PyNum → Option Bool → Option Int → Response
  buildGif : List String → String → Option PyNum → Int → Response
  convertAnimation : String → String → String → Option PyNum → Option Int → Response

/-- `handle_request(input_data)`: normalize the action, validate the
required fields of each operation (returning `GIF_BAD_REQUEST` before any
I/O), dispatch to the corresponding `GIFTool` method, and answer
`GIF_UNSUPPORTED_ACTION` for anything outside the action table. -/
def handleRequest (req : Request) (ops : OpsModel) : Response :=
  let action := normalizeAction req.action
  if action = "get_frame_count" then
    if !truthy req.inputPath then errorResponse "GIF_BAD_REQUEST" "Missing input_path"
    else ops.getFrameCount (req.inputPath.getD "")
  else if action = "export_frames" then
    if !truthy req.inputPath || !truthy req.outputDir then
      errorResponse "GIF_BAD_REQUEST" "Missing input_path or output_dir"
    else
      let outputFormat :=
        if truthy req.outputFormat then req.outputFormat.getD ""
        else if truthy req.format then req.format.getD ""
        else "png"
      ops.exportFrames (req.inputPath.getD "") (req.outputDir.getD "") outputFormat
        (buildFrameRangeFromRequest req.frameRange req.startFrame req.endFrame)
  else if action = "reverse" then
    if !truthy req.inputPath || !truthy req.outputPath then
      errorResponse "GIF_BAD_REQUEST" "Missing input_path or output_path"
    else ops.reverseGif (req.inputPath.getD "") (req.outputPath.getD "") req.loop
  else if action = "change_speed" then
    if !truthy req.inputPath || !truthy req.outputPath then
      errorResponse "GIF_BAD_REQUEST" "Missing input_path or output_path"
    else
      ops.changeSpeed (req.inputPath.getD "") (req.outputPath.getD "") req.speedFactor req.loop
  else if action = "compress" then
    if !truthy req.inputPath || !truthy req.outputPath then
      errorResponse "GIF_BAD_REQUEST" "Missing input_path or output_path"
    else ops.compressGif (req.inputPath.getD "") (req.outputPath.getD "") req.quality req.loop
  else if action = "resize" then
    if !truthy req.inputPath || !truthy req.outputPath then
      errorResponse "GIF_BAD_REQUEST" "Missing input_path or output_path"
    else
      ops.resizeGif (req.inputPath.getD "") (req.outputPath.getD "") req.width req.height
        req.maintainAspect req.loop
  else if action = "build_gif" then
    if !truthy req.outputPath then errorResponse "GIF_BAD_REQUEST" "Missing output_path"
    else ops.buildGif (coerceInputPaths req) (req.outputPath.getD "") req.fps (req.loop.getD 0)
  else if action = "convert_animation" then
    if !truthy req.inputPath || !truthy req.outputPath then
      errorResponse "GIF_BAD_REQUEST" "Missing input_path or output_path"
    else
      let outputFormat :=
        if truthy req.outputFormat then req.outputFormat
        else if truthy req.format then req.format
        else none
      match outputFormat with
      | none => errorResponse "GIF_BAD_REQUEST" "Missing output_format"
      | some fmtValue =>
        ops.convertAnimation (req.inputPath.getD "") (req.outputPath.getD "") fmtValue
          req.quality req.loop
  else errorResponse "GIF_UNSUPPORTED_ACTION" ("Unsupported action: " ++ action)

/-- The canonical actions of the dispatch table. -/
def knownActions : List String :=
  ["get_frame_count", "export_frames", "reverse", "change_speed", "compress",
    "resize", "build_gif", "convert_animation"]

/-- Every error code a `GIFTool` method or the dispatcher can place in a
failure response, read off the `_error_response` call sites of the source. -/
def gifErrorCodes : List String :=
  ["GIF_BAD_REQUEST", "GIF_UNSUPPORTED_ACTION", "GIF_GET_FRAME_COUNT_FAILED",
    "GIF_EXPORT_UNSUPPORTED_FORMAT", "GIF_EXPORT_EMPTY_SELECTION",
    "GIF_INPUT_NOT_FOUND", "GIF_UNSUPPORTED_IMAGE", "GIF_EXPORT_FAILED",
    "GIF_REVERSE_FAILED", "GIF_SPEED_CHANGE_FAILED", "GIF_MEMORY_LIMIT",
    "GIF_COMPRESS_FAILED", "GIF_BUILD_NO_INPUT", "GIF_BUILD_FAILED",
    "GIF_RESIZE_INVALID_SIZE", "GIF_RESIZE_FAILED",
    "ANIMATED_CONVERT_BAD_FORMAT", "ANIMATED_CONVERT_BAD_INPUT",
    "ANIMATED_CONVERT_FAILED"]

/-- The codes the spec names as the canonical error codes. -/
def specCanonicalCodes : List String :=
  ["BAD_REQUEST", "INPUT_NOT_FOUND", "UNSUPPORTED_CONTAINER", "MEMORY_LIMIT",
    "UNSUPPORTED_OUTPUT_FORMAT", "INVALID_SIZE", "UNSUPPORTED_ACTION",
    "CONVERT_BAD_FORMAT"]

/-- A response is well-shaped when it is a success, or a failure carrying
`error` and an `error_code` drawn from the given code set. -/
def responseOk (codes : List String) (r : Response) : Prop :=
  r.success = true ∨
    (r.success = false ∧ r.error.isSome ∧ ∃ c, r.errorCode = some c ∧ c ∈ codes)

/-- The response discipline of each `GIFTool` method, read off its
`_error_response` sites and `except` clauses in the source. -/
def opsWellBehaved (ops : OpsModel) : Prop :=
  (∀ p, responseOk ["GIF_GET_FRAME_COUNT_FAILED"] (ops.getFrameCount p)) ∧
  (∀ p d f r, responseOk ["GIF_EXPORT_UNSUPPORTED_FORMAT", "GIF_EXPORT_EMPTY_SELECTION",
    "GIF_INPUT_NOT_FOUND", "GIF_UNSUPPORTED_IMAGE", "GIF_EXPORT_FAILED"]
    (ops.exportFrames p d f r)) ∧
  (∀ p o l, responseOk ["GIF_INPUT_NOT_FOUND", "GIF_UNSUPPORTED_IMAGE", "GIF_REVERSE_FAILED"]
    (ops.reverseGif p o l)) ∧
  (∀ p o s l, responseOk ["GIF_INPUT_NOT_FOUND", "GIF_UNSUPPORTED_IMAGE",
    "GIF_SPEED_CHANGE_FAILED"] (ops.changeSpeed p o s l)) ∧
  (∀ p o q l, responseOk ["GIF_INPUT_NOT_FOUND", "GIF_UNSUPPORTED_IMAGE", "GIF_MEMORY_LIMIT",
    "GIF_COMPRESS_FAILED"] (ops.compressGif p o q l)) ∧
  (∀ p o w h m l, responseOk ["GIF_RESIZE_INVALID_SIZE", "GIF_INPUT_NOT_FOUND",
    "GIF_UNSUPPORTED_IMAGE", "GIF_MEMORY_LIMIT", "GIF_RESIZE_FAILED"]
    (ops.resizeGif p o w h m l)) ∧
  (∀ ps o f l, responseOk ["GIF_BUILD_NO_INPUT", "GIF_INPUT_NOT_FOUND",
    "GIF_UNSUPPORTED_IMAGE", "GIF_BUILD_FAILED"] (ops.buildGif ps o f l)) ∧
  (∀ p o f q l, responseOk ["GIF_INPUT_NOT_FOUND", "GIF_UNSUPPORTED_IMAGE",
    "ANIMATED_CONVERT_BAD_FORMAT", "ANIMATED_CONVERT_BAD_INPUT", "ANIMATED_CONVERT_FAILED"]
    (ops.convertAnimation p o f q l))

/-- An `OpsModel` whose every method call succeeds; used to instantiate the
router theorems at concrete requests. -/
def allSuccessOps : OpsModel :=
  ⟨fun _ => successResponse, fun _ _ _ _ => successResponse,
    fun _ _ _ => successResponse, fun _ _ _ _ => successResponse,
    fun _ _ _ _ => successResponse, fun _ _ _ _ _ _ => successResponse,
    fun _ _ _ _ => successResponse, fun _ _ _ _ _ => successResponse⟩

/-- A request with every field absent. -/
def emptyRequest : Request :=
  ⟨none, none, none, none, none, none, none, none, none, none, none, none,
    none, none, none, none, none⟩

/-! ## Helper lemmas -/

theorem resolveFrameDuration_pos (defaultDuration : Int) (f : RawFrame)
    (h : 1 ≤ defaultDuration) : 1 ≤ resolveFrameDuration defaultDuration f := by
  unfold resolveFrameDuration
  cases f.durationInfo with
  | none => exact h
  | some d =>
    dsimp only
    split
    · exact h
    · omega

theorem apngDelayToMs_pos (num den : Nat) : 1 ≤ apngDelayToMs num den := by
  unfold apngDelayToMs
  exact le_max_left _ _

theorem apngDurationsLoop_pos (data : List Nat) :
    ∀ (fuel offset : Nat), ∀ d ∈ apngDurationsLoop data offset fuel, 1 ≤ d := by
  intro fuel
  induction fuel with
  | zero => intro offset d hd; simp [apngDurationsLoop] at hd
  | succ n ih =>
    intro offset d hd
    rw [apngDurationsLoop] at hd
    dsimp only at hd
    split at hd
    · split at hd
      · simp at hd
      · split at hd
        · rcases List.mem_cons.mp hd with h | h
          · subst h; exact apngDelayToMs_pos _ _
          · exact ih _ _ h
        · exact ih _ _ hd
    · simp at hd

theorem webpDurationsLoop_pos (data : List Nat) :
    ∀ (fuel offset : Nat), ∀ d ∈ webpDurationsLoop data offset fuel, 1 ≤ d := by
  intro fuel
  induction fuel with
  | zero => intro offset d hd; simp [webpDurationsLoop] at hd
  | succ n ih =>
    intro offset d hd
    rw [webpDurationsLoop] at hd
    dsimp only at hd
    split at hd
    · split at hd
      · simp at hd
      · split at hd
        · rcases List.mem_cons.mp hd with h | h
          · subst h; exact le_max_left _ _
          · exact ih _ _ h
        · exact ih _ _ hd
    · simp at hd

theorem extractApngDurations_pos (data : List Nat) (l : List Int)
    (h : extractApngDurations data = some l) : ∀ d ∈ l, 1 ≤ d := by
  unfold extractApngDurations at h
  dsimp only at h
  split at h
  · exact absurd h (by simp)
  · split at h
    · exact absurd h (by simp)
    · injection h with h
      subst h
      intro d hd
      exact apngDurationsLoop_pos data _ _ d hd

theorem extractWebpDurations_pos (data : List Nat) (l : List Int)
    (h : extractWebpDurations data = some l) : ∀ d ∈ l, 1 ≤ d := by
  unfold extractWebpDurations at h
  dsimp only at h
  split at h
  · exact absurd h (by simp)
  · split at h
    · exact absurd h (by simp)
    · injection h with h
      subst h
      intro d hd
      exact webpDurationsLoop_pos data _ _ d hd

theorem mergeParsedDurations_length (p : Option (List Int)) (ds : List Int) (n : Nat)
    (h : ds.length = n) : (mergeParsedDurations p ds n).length = n := by
  unfold mergeParsedDurations
  cases p with
  | none => exact h
  | some l =>
    dsimp only
    split
    · rename_i hc
      exact hc.2
    · exact h

theorem mergeParsedDurations_pos (p : Option (List Int)) (ds : List Int) (n : Nat)
    (hds : ∀ d ∈ ds, 1 ≤ d) (hp : ∀ l, p = some l → ∀ d ∈ l, 1 ≤ d) :
    ∀ d ∈ mergeParsedDurations p ds n, 1 ≤ d := by
  unfold mergeParsedDurations
  cases p with
  | none => exact hds
  | some l =>
    dsimp only
    split
    · exact hp l rfl
    · exact hds

/-- `responseOk` is monotone in the code set. -/
theorem responseOk_mono {codes codes' : List String} {r : Response}
    (h : responseOk codes r) (hsub : ∀ c ∈ codes, c ∈ codes') : responseOk codes' r := by
  rcases h with h | ⟨hs, he, c, hc, hmem⟩
  · exact Or.inl h
  · exact Or.inr ⟨hs, he, c, hc, hsub c hmem⟩

theorem allSuccessOps_wellBehaved : opsWellBehaved allSuccessOps := by
  refine ⟨?_, ?_, ?_, ?_, ?_, ?_, ?_, ?_⟩ <;> intros <;> exact Or.inl rfl

/-! ## C7: write atomicity -/

/-- C7, counterexample.  The claim says a failed operation never leaves a
partially written file at the caller-visible destination path because the
encoder writes to a temporary path and renames into place.  In the source,
`_save_gif`/`_save_webp`/`_save_apng` pass `output_path` itself to
`first.save(...)`; when the encode fails against a pre-existing destination
(here: the destination equals the source, holding the complete file 3), the
destination is left holding the truncated partial output instead of being
untouched. -/
theorem save_atomicity_counterexample :
    (saveDirectToPath false 7 "anim.gif" (fun _ => some (FileContent.complete 3))).2 "anim.gif" =
      some (FileContent.truncated 7) ∧
    some (FileContent.truncated 7) ≠ some (FileContent.complete 3) ∧
    (saveDirectToPath false 7 "anim.gif" (fun _ => some (FileContent.complete 3))).1 = false := by
  exact ⟨by decide, by decide, rfl⟩

/-- C7 (amended): the writers hand the destination path directly to the
encoder, with no temporary path and no rename; a completed encode leaves the
complete file and a failed encode leaves the truncated partial file at the
caller-visible destination path, while every other path is untouched. -/
theorem save_direct_amended :
    ∀ (encodeOk : Bool) (outId : Nat) (path : String) (fs : Fs),
      (saveDirectToPath encodeOk outId path fs).2 path =
        some (if encodeOk then FileContent.complete outId else FileContent.truncated outId) ∧
      (saveDirectToPath encodeOk outId path fs).1 = encodeOk ∧
      ∀ p, p ≠ path → (saveDirectToPath encodeOk outId path fs).2 p = fs p := by
  intro encodeOk outId path fs
  refine ⟨by simp [saveDirectToPath], rfl, ?_⟩
  intro p hp
  simp [saveDirectToPath, hp]

/-- C7, witness for `save_direct_amended` at a failed encode over an empty
file system. -/
theorem save_direct_witness :
    (saveDirectToPath false 7 "out.gif" (fun _ => none)).2 "out.gif" =
      some (FileContent.truncated 7) ∧
    ("src.gif" ≠ "out.gif") ∧
    (saveDirectToPath false 7 "out.gif" (fun _ => none)).2 "src.gif" = none :=
  ⟨(save_direct_amended false 7 "out.gif" (fun _ => none)).1, by decide,
    (save_direct_amended false 7 "out.gif" (fun _ => none)).2.2 "src.gif" (by decide)⟩

/-! ## C6: build_gif uniform duration -/

/-- C6, counterexample.  The claim says every output frame receives duration
`round(1000 / fps)` ms; at `fps = 7` the source computes
`max(1, int(1000 / 7)) = 142` (truncation), while `round(1000 / 7) = 143`. -/
theorem build_gif_round_counterexample :
    (buildGifOp [⟨0, (1, 1)⟩, ⟨1, (1, 1)⟩] (some ⟨7, 1⟩) 0 "built.gif").2 =
      some ⟨[⟨0, (1, 1)⟩, ⟨1, (1, 1)⟩], "built.gif", [142, 142], 0, false, none, none⟩ ∧
    pyRoundDiv 1000 7 = 143 ∧ (142 : Int) ≠ 143 :=
  ⟨by decide, by decide, by decide⟩

/-- C6 (amended): every `build_gif` output frame receives the same duration
`max(1, int(1000 / fps))` milliseconds — the floor of `1000 / fps`, not its
rounding — where an invalid or non-positive fps input is replaced by the
default 10; two equal-size stills at fps 5 yield two frames of 200 ms each
(where floor and round agree). -/
theorem build_gif_duration_amended :
    ∀ (stills : List Still) (fps : Option PyNum) (loopArg : Int) (path : String),
      stills ≠ [] →
      (buildGifOp stills fps loopArg path).1 = successResponse ∧
      (buildGifOp stills fps loopArg path).2 =
        some ⟨stills.map (fun s => padToSize s (chooseCanvasSize (stills.map Still.size))),
          path,
          List.replicate stills.length
            (max 1 (pyTruncDiv (1000 * (sanitizeFps fps).d) (sanitizeFps fps).n)),
          loopArg, false, none, none⟩ ∧
      sanitizeFps none = ⟨10, 1⟩ ∧
      (∀ v : PyNum, v.n ≤ 0 → sanitizeFps (some v) = ⟨10, 1⟩) ∧
      sanitizeFps (some ⟨5, 1⟩) = ⟨5, 1⟩ ∧
      max 1 (pyTruncDiv (1000 * 1) 5) = 200 ∧
      pyRoundDiv (1000 * 1) 5 = 200 := by
  intro stills fps loopArg path hne
  refine ⟨?_, ?_, rfl, ?_, by decide, by decide, by decide⟩
  · unfold buildGifOp
    rw [if_neg hne]
  · unfold buildGifOp
    rw [if_neg hne]
    dsimp only
    rw [List.length_map]
  · intro v hv
    unfold sanitizeFps
    simp only [Option.getD_some]
    rw [if_pos hv]

/-- C6, witness for `build_gif_duration_amended`: two 1×1 stills at fps 5. -/
theorem build_gif_duration_witness :
    ([⟨0, (1, 1)⟩, ⟨1, (1, 1)⟩] : List Still) ≠ [] ∧
    (buildGifOp [⟨0, (1, 1)⟩, ⟨1, (1, 1)⟩] (some ⟨5, 1⟩) 0 "built.gif").2 =
      some ⟨([⟨0, (1, 1)⟩, ⟨1, (1, 1)⟩] : List Still).map
          (fun s => padToSize s (chooseCanvasSize
            (([⟨0, (1, 1)⟩, ⟨1, (1, 1)⟩] : List Still).map Still.size))),
        "built.gif",
        List.replicate 2
          (max 1 (pyTruncDiv (1000 * (sanitizeFps (some ⟨5, 1⟩)).d)
            (sanitizeFps (some ⟨5, 1⟩)).n)),
        0, false, none, none⟩ :=
  ⟨by decide,
    (build_gif_duration_amended [⟨0, (1, 1)⟩, ⟨1, (1, 1)⟩] (some ⟨5, 1⟩) 0 "built.gif"
      (by decide)).2.1⟩

/-! ## C9: extraction invariants -/

theorem decodedAnimDurations_length (src : AnimSource) :
    (decodedAnimDurations src).length = src.frames.length := by
  simp [decodedAnimDurations]

theorem decodedAnimDurations_pos (src : AnimSource) :
    ∀ d ∈ decodedAnimDurations src, 1 ≤ d := by
  intro d hd
  simp only [decodedAnimDurations, List.mem_map] at hd
  obtain ⟨f, _, rfl⟩ := hd
  apply resolveFrameDuration_pos
  split <;> omega

/-- C9, counterexample.  The claim says every duration produced by frame
extraction is at least 1 ms.  On the GIF path (`_extract_gif_frames`) the
container-level default `gif.info.get("duration", 100)` is used without a
positivity check, so a GIF whose global delay is 0 — common for GIFs written
with zero GCE delay — and whose frame carries no positive local duration
yields duration 0. -/
theorem zero_duration_counterexample :
    (extractGifFrames ⟨[⟨[], none, none⟩], (12, 12), some 0, some 0⟩).durations = [0] ∧
    ¬ (1 : Int) ≤ 0 :=
  ⟨rfl, by decide⟩

/-- C9 (amended): the frame, duration and disposal lists of every extraction
path have equal length, and every duration is ≥ 1 ms on the generic
animated path (`_extract_animation_frames`, including the WEBP/APNG timing
corrections, whose parsed entries are clamped by `max(1, ...)`); on the GIF
paths (`_extract_gif_frames`, `_extract_gif_frames_with_disposal`) durations
are ≥ 1 ms provided the container-level default duration is positive (the
default is used unsanitized there). -/
theorem extraction_invariants_amended :
    (∀ g : GifData,
      (extractGifFrames g).frames.length = g.frames.length ∧
      (extractGifFrames g).durations.length = g.frames.length ∧
      (extractGifFramesWithDisposal g).frames.length = g.frames.length ∧
      (extractGifFramesWithDisposal g).durations.length = g.frames.length ∧
      (extractGifFramesWithDisposal g).disposals.length = g.frames.length ∧
      (1 ≤ g.defaultDurationInfo.getD 100 →
        (∀ d ∈ (extractGifFrames g).durations, 1 ≤ d) ∧
        (∀ d ∈ (extractGifFramesWithDisposal g).durations, 1 ≤ d))) ∧
    (∀ (src : AnimSource) (requireAnimated : Bool) (e : ExtractedAnim),
      extractAnimationFrames src requireAnimated = .ok e →
      e.frames.length = src.frames.length ∧
      e.durations.length = src.frames.length ∧
      e.disposals.length = src.frames.length ∧
      ∀ d ∈ e.durations, 1 ≤ d) := by
  constructor
  · intro g
    refine ⟨by simp [extractGifFrames], by simp [extractGifFrames],
      by simp [extractGifFramesWithDisposal], by simp [extractGifFramesWithDisposal],
      by simp [extractGifFramesWithDisposal], ?_⟩
    intro hdef
    constructor
    · intro d hd
      simp only [extractGifFrames, List.mem_map] at hd
      obtain ⟨f, _, rfl⟩ := hd
      exact resolveFrameDuration_pos _ f hdef
    · intro d hd
      simp only [extractGifFramesWithDisposal, List.mem_map] at hd
      obtain ⟨f, _, rfl⟩ := hd
      exact resolveFrameDuration_pos _ f hdef
  · intro src requireAnimated e h
    unfold extractAnimationFrames at h
    dsimp only at h
    split at h
    · exact absurd h (by simp)
    · split at h
      · exact absurd h (by simp)
      · injection h with h
        subst h
        dsimp only
        refine ⟨by simp, ?_, by simp, ?_⟩
        · cases hsb : src.fileBytes with
          | none =>
            simp only [hsb]
            exact decodedAnimDurations_length src
          | some data =>
            simp only [hsb]
            simp only [List.length_map]
            split
            · split
              · refine mergeParsedDurations_length _ _ _ ?_
                refine mergeParsedDurations_length _ _ _ ?_
                simp [decodedAnimDurations_length]
              · refine mergeParsedDurations_length _ _ _ ?_
                simp [decodedAnimDurations_length]
            · split
              · refine mergeParsedDurations_length _ _ _ ?_
                simp [decodedAnimDurations_length]
              · exact decodedAnimDurations_length src
        · cases hsb : src.fileBytes with
          | none =>
            simp only [hsb]
            exact decodedAnimDurations_pos src
          | some data =>
            simp only [hsb]
            split
            · split
              · refine mergeParsedDurations_pos _ _ _ ?_ ?_
                · refine mergeParsedDurations_pos _ _ _ (decodedAnimDurations_pos src) ?_
                  intro l hl
                  exact extractWebpDurations_pos data l hl
                · intro l hl
                  exact extractApngDurations_pos data l hl
              · refine mergeParsedDurations_pos _ _ _ (decodedAnimDurations_pos src) ?_
                intro l hl
                exact extractApngDurations_pos data l hl
            · split
              · refine mergeParsedDurations_pos _ _ _ (decodedAnimDurations_pos src) ?_
                intro l hl
                exact extractWebpDurations_pos data l hl
              · exact decodedAnimDurations_pos src

/-- C9, witness for `extraction_invariants_amended`: a two-frame GIF state
with default duration 100, and a two-frame animated PNG source. -/
theorem extraction_invariants_witness :
    (1 : Int) ≤ (⟨[⟨[], some 40, some 1⟩, ⟨[], none, none⟩], (2, 2), none,
      none⟩ : GifData).defaultDurationInfo.getD 100 ∧
    (40 : Int) ∈ (extractGifFrames ⟨[⟨[], some 40, some 1⟩, ⟨[], none, none⟩], (2, 2), none,
      none⟩).durations ∧
    (1 : Int) ≤ 40 ∧
    extractAnimationFrames ⟨"PNG", [⟨[], none, none⟩, ⟨[], none, none⟩], none, none, none⟩
      true = .ok ⟨[[], []], [100, 100], [0, 0], 0, "PNG"⟩ ∧
    ([100, 100] : List Int).length = 2 :=
  ⟨by decide, by decide, by decide, rfl,
    (extraction_invariants_amended.2
      ⟨"PNG", [⟨[], none, none⟩, ⟨[], none, none⟩], none, none, none⟩ true
      ⟨[[], []], [100, 100], [0, 0], 0, "PNG"⟩ rfl).2.1⟩

/-! ## C4: change_speed -/

/-- C4, counterexample.  The claim says factor 1.0 leaves every duration
unchanged.  A GIF whose container default delay is 0 (and whose frame has no
positive local duration) is extracted with duration 0, and
`max(1, int(0 / 1.0)) = 1 ≠ 0`: at speed factor exactly 1.0 the duration
list changes from `[0]` to `[1]`. -/
theorem change_speed_identity_counterexample :
    (extractGifFrames ⟨[⟨[], none, none⟩], (12, 12), some 0, some 7⟩).durations = [0] ∧
    (changeSpeedGif ⟨[⟨[], none, none⟩], (12, 12), some 0, some 7⟩ (some ⟨1, 1⟩) none
      "out.gif").durations = [1] ∧
    ([1] : List Int) ≠ [0] :=
  ⟨rfl, by decide, by decide⟩

/-- C4 (amended): `change_speed` clamps the factor to `[0.1, 2.0]` with
invalid or non-positive input normalized to 1.0, and maps every duration `d`
to `max(1, int(d / factor))`, which for the non-negative durations the
extractor produces equals `max(1, ⌊d / factor⌋)`; factor 1.0 leaves every
*positive* duration unchanged (a duration 0 becomes 1), factor 2.0 sends `d`
to `max(1, ⌊d / 2⌋)`, and factor 0.5 doubles every duration ≥ 1. -/
theorem change_speed_amended :
    ∀ (g : GifData) (sf : Option PyNum) (lp : Option Int) (path : String),
      (changeSpeedGif g sf lp path).durations =
        (extractGifFrames g).durations.map (retimeDuration (clampSpeedFactor sf)) ∧
      (changeSpeedGif g sf lp path).frames = (extractGifFrames g).frames ∧
      clampSpeedFactor none = ⟨1, 1⟩ ∧
      (∀ v : PyNum, v.n ≤ 0 → clampSpeedFactor (some v) = ⟨1, 1⟩) ∧
      (∀ v : PyNum, 0 < v.d →
        1 * (clampSpeedFactor (some v)).d ≤ (clampSpeedFactor (some v)).n * 10 ∧
        (clampSpeedFactor (some v)).n * 1 ≤ 2 * (clampSpeedFactor (some v)).d ∧
        0 < (clampSpeedFactor (some v)).n ∧ 0 < (clampSpeedFactor (some v)).d) ∧
      (∀ (d : Int) (f : PyNum), 0 ≤ d → 0 < f.n → 0 < f.d →
        retimeDuration f d = max 1 ((d * f.d).fdiv f.n)) ∧
      (∀ d : Int, 1 ≤ d →
        retimeDuration ⟨1, 1⟩ d = d ∧
        retimeDuration ⟨2, 1⟩ d = max 1 (d.fdiv 2) ∧
        retimeDuration ⟨1, 2⟩ d = 2 * d) := by
  intro g sf lp path
  refine ⟨rfl, rfl, by decide, ?_, ?_, ?_, ?_⟩
  · intro v hv
    unfold clampSpeedFactor
    simp only [Option.getD_some]
    rw [if_pos hv]
    decide
  · intro v hd
    unfold clampSpeedFactor pyNumLe
    simp only [Option.getD_some]
    split_ifs with h1 h2 h3 h4 h5 h6 <;>
      simp_all only [decide_eq_true_eq, not_le, true_and, and_true] <;> omega
  · intro d f hd hfn hfd
    unfold retimeDuration pyTruncDiv
    rw [Int.fdiv_eq_tdiv (by positivity) (le_of_lt hfn)]
  · intro d hd
    refine ⟨?_, ?_, ?_⟩
    · unfold retimeDuration pyTruncDiv
      dsimp only
      rw [mul_one, Int.tdiv_one]
      exact max_eq_right hd
    · unfold retimeDuration pyTruncDiv
      dsimp only
      rw [mul_one, Int.fdiv_eq_tdiv (by omega) (by omega)]
    · unfold retimeDuration pyTruncDiv
      dsimp only
      rw [Int.tdiv_one, max_eq_right (by omega : (1 : Int) ≤ d * 2)]
      omega

/-- C4, witness for `change_speed_amended` on a one-frame GIF with duration
7 at factor 0.5. -/
theorem change_speed_witness :
    (changeSpeedGif ⟨[⟨[], some 7, none⟩], (4, 4), none, none⟩ (some ⟨1, 2⟩) none
        "out.gif").durations =
      (extractGifFrames ⟨[⟨[], some 7, none⟩], (4, 4), none, none⟩).durations.map
        (retimeDuration (clampSpeedFactor (some ⟨1, 2⟩))) ∧
    (0 : Int) < (⟨1, 2⟩ : PyNum).d ∧
    0 < (clampSpeedFactor (some ⟨1, 2⟩)).n ∧
    (1 : Int) ≤ 7 ∧
    retimeDuration ⟨1, 2⟩ 7 = 2 * 7 :=
  ⟨(change_speed_amended ⟨[⟨[], some 7, none⟩], (4, 4), none, none⟩ (some ⟨1, 2⟩) none
      "out.gif").1,
   by decide,
   ((change_speed_amended ⟨[⟨[], some 7, none⟩], (4, 4), none, none⟩ (some ⟨1, 2⟩) none
      "out.gif").2.2.2.2.1 ⟨1, 2⟩ (by decide)).2.2.1,
   by decide,
   ((change_speed_amended ⟨[⟨[], some 7, none⟩], (4, 4), none, none⟩ (some ⟨1, 2⟩) none
      "out.gif").2.2.2.2.2.2 7 (by decide)).2.2⟩

/-! ## C10: export_frames empty selection -/

/-- C10 (confirmed): when the parsed frame-range indices, after dropping
out-of-bounds values, leave no frames selected, `export_frames` returns the
`GIF_EXPORT_EMPTY_SELECTION` error response (`success=false`) before
creating the output directory or writing any file. -/
theorem export_empty_selection :
    ∀ (frames : List (List RGBA)) (outputFormat : Option String) (frameRange : String)
      (baseName outputDir : String),
      (parseFrameRange frameRange frames.length).filter
          (fun i => decide (0 ≤ i) && decide (i < (frames.length : Int))) = [] →
      (exportFramesOp frames outputFormat frameRange baseName outputDir).1.success = false ∧
      (exportFramesOp frames outputFormat frameRange baseName outputDir).2 = [] := by
  intro frames outputFormat frameRange baseName outputDir h
  unfold exportFramesOp
  dsimp only
  split
  · exact ⟨rfl, rfl⟩
  · simp [h, errorResponse]

/-- C10, witness for `export_empty_selection`: frame range `"10"` against a
3-frame animation selects only index 10, which the bounds filter drops. -/
theorem export_empty_selection_witness :
    (parseFrameRange "10" ([[], [], []] : List (List RGBA)).length).filter
        (fun i => decide (0 ≤ i) &&
          decide (i < ((([[], [], []] : List (List RGBA)).length : Nat) : Int))) = [] ∧
    (exportFramesOp [[], [], []] (some "png") "10" "clip" "outdir").1.success = false ∧
    (exportFramesOp [[], [], []] (some "png") "10" "clip" "outdir").2 = [] :=
  ⟨by decide,
   (export_empty_selection [[], [], []] (some "png") "10" "clip" "outdir" (by decide)).1,
   (export_empty_selection [[], [], []] (some "png") "10" "clip" "outdir" (by decide)).2⟩

/-! ## C1: reverse -/

/-- C1, counterexample.  The claim says `reverse` reverses frame, duration
and disposal order in lockstep, output frame `i` carrying the disposal of
input frame `N-1-i`.  The source's reverse path uses `_extract_gif_frames`,
which reads no disposals at all, and calls `_save_gif` without a `disposal`
argument — while `compress`/`resize` demonstrate how per-frame disposals are
carried to the writer (`disposal=disposals`).  For an input whose disposal
list is `[0, 2]`, the reversed-lockstep claim requires the writer to receive
`[2, 0]`; it receives nothing. -/
theorem reverse_disposal_counterexample :
    (extractGifFramesWithDisposal
        ⟨[⟨[⟨1, 2, 3, 255⟩], some 90, some 0⟩, ⟨[⟨4, 5, 6, 255⟩], some 90, some 2⟩],
          (1, 1), some 100, some 0⟩).disposals = [0, 2] ∧
    (reverseGif ⟨[⟨[⟨1, 2, 3, 255⟩], some 90, some 0⟩, ⟨[⟨4, 5, 6, 255⟩], some 90, some 2⟩],
        (1, 1), some 100, some 0⟩ none "out.gif").disposalArg = none ∧
    (none : Option (List Int)) ≠ some [2, 0] :=
  ⟨by decide, rfl, by decide⟩

/-- C1 (amended): `reverse` preserves the frame count and reverses the frame
list and the duration list in lockstep — output frame `i` carries the
content and duration of input frame `N-1-i` — but disposals are not carried:
the writer is invoked with no disposal list. -/
theorem reverse_lockstep_amended :
    ∀ (g : GifData) (lp : Option Int) (path : String),
      (reverseGif g lp path).frames.length = g.frames.length ∧
      (reverseGif g lp path).durations.length = g.frames.length ∧
      (reverseGif g lp path).disposalArg = none ∧
      ∀ i : Nat, i < g.frames.length →
        (reverseGif g lp path).frames[i]? =
          (extractGifFrames g).frames[g.frames.length - 1 - i]? ∧
        (reverseGif g lp path).durations[i]? =
          (extractGifFrames g).durations[g.frames.length - 1 - i]? := by
  intro g lp path
  have hlen : (extractGifFrames g).frames.length = g.frames.length := by
    simp [extractGifFrames]
  have hlend : (extractGifFrames g).durations.length = g.frames.length := by
    simp [extractGifFrames]
  refine ⟨?_, ?_, rfl, ?_⟩
  · show (extractGifFrames g).frames.reverse.length = g.frames.length
    rw [List.length_reverse, hlen]
  · show (extractGifFrames g).durations.reverse.length = g.frames.length
    rw [List.length_reverse, hlend]
  · intro i hi
    constructor
    · show (extractGifFrames g).frames.reverse[i]? = _
      rw [List.getElem?_reverse (by rw [hlen]; exact hi), hlen]
    · show (extractGifFrames g).durations.reverse[i]? = _
      rw [List.getElem?_reverse (by rw [hlend]; exact hi), hlend]

/-- C1, witness for `reverse_lockstep_amended` on a two-frame GIF at
index 0. -/
theorem reverse_lockstep_witness :
    (0 : Nat) < (⟨[⟨[⟨1, 1, 1, 255⟩], some 40, none⟩, ⟨[⟨2, 2, 2, 255⟩], some 80, none⟩],
      (1, 1), none, none⟩ : GifData).frames.length ∧
    (reverseGif ⟨[⟨[⟨1, 1, 1, 255⟩], some 40, none⟩, ⟨[⟨2, 2, 2, 255⟩], some 80, none⟩],
        (1, 1), none, none⟩ none "r.gif").frames[0]? =
      (extractGifFrames ⟨[⟨[⟨1, 1, 1, 255⟩], some 40, none⟩, ⟨[⟨2, 2, 2, 255⟩], some 80, none⟩],
        (1, 1), none, none⟩).frames[2 - 1 - 0]? ∧
    (reverseGif ⟨[⟨[⟨1, 1, 1, 255⟩], some 40, none⟩, ⟨[⟨2, 2, 2, 255⟩], some 80, none⟩],
        (1, 1), none, none⟩ none "r.gif").durations[0]? =
      (extractGifFrames ⟨[⟨[⟨1, 1, 1, 255⟩], some 40, none⟩, ⟨[⟨2, 2, 2, 255⟩], some 80, none⟩],
        (1, 1), none, none⟩).durations[2 - 1 - 0]? :=
  ⟨by decide,
   ((reverse_lockstep_amended ⟨[⟨[⟨1, 1, 1, 255⟩], some 40, none⟩,
      ⟨[⟨2, 2, 2, 255⟩], some 80, none⟩], (1, 1), none, none⟩ none "r.gif").2.2.2 0
      (by decide)).1,
   ((reverse_lockstep_amended ⟨[⟨[⟨1, 1, 1, 255⟩], some 40, none⟩,
      ⟨[⟨2, 2, 2, 255⟩], some 80, none⟩], (1, 1), none, none⟩ none "r.gif").2.2.2 0
      (by decide)).2⟩

/-! ## C2: frame-pixel budget -/

theorem resolveResizeSize_pos (src : Int × Int) (tw th : Int) (ka : Bool) (a b : Int)
    (h : resolveResizeSize src tw th ka = .ok (a, b)) : 1 ≤ a ∧ 1 ≤ b := by
  unfold resolveResizeSize at h
  dsimp only at h
  split at h
  · exact absurd h (by simp)
  · split at h
    · injection h with h
      rw [Prod.mk.injEq] at h
      obtain ⟨ha, hb⟩ := h
      subst ha hb
      exact ⟨le_max_left _ _, le_max_left _ _⟩
    · split at h
      · injection h with h
        rw [Prod.mk.injEq] at h
        obtain ⟨ha, hb⟩ := h
        subst ha hb
        exact ⟨le_max_left _ _, le_max_left _ _⟩
      · split at h
        · injection h with h
          rw [Prod.mk.injEq] at h
          obtain ⟨ha, hb⟩ := h
          subst ha hb
          exact ⟨le_max_left _ _, le_max_left _ _⟩
        · injection h with h
          rw [Prod.mk.injEq] at h
          obtain ⟨ha, hb⟩ := h
          subst ha hb
          exact ⟨le_max_left _ _, le_max_left _ _⟩

/-- C2, counterexample.  The claim says a resize request whose frame count
times canvas width times canvas height is at or under 120,000,000 passes the
budget check.  Upscaling a one-frame 10×10 GIF to 20000×20000 has canvas
cost `1 * 10 * 10 = 100`, yet the source asserts the budget against the
per-axis maximum of source and target sizes and fails with
`GIF_MEMORY_LIMIT`. -/
theorem budget_canvas_counterexample :
    (1 : Int) * 10 * 10 ≤ MAX_FRAME_PIXEL_BUDGET ∧
    resizeGifOp (fun frame _ => (frame.map (fun _ => 0), [])) (fun f _ _ => f)
        ⟨[⟨[⟨0, 0, 0, 255⟩], none, none⟩], (10, 10), none, none⟩
        (some ⟨20000, 1⟩) (some ⟨20000, 1⟩) (some true) none "out.gif" =
      (errorResponse "GIF_MEMORY_LIMIT" "GIF is too large to process safely", none, []) :=
  ⟨by decide, by decide⟩

/-- C2 (amended): `compress` asserts the budget against the source canvas
(`gif.size`), and `resize` against the per-axis maximum of the source and
target canvases; in both operations a product above 120,000,000 frame-pixels
fails with the `GIF_MEMORY_LIMIT` error before any quantize/resize buffer is
allocated and before any output write, and a product at or under the budget
passes the check. -/
theorem budget_guard_amended :
    (∀ (quantizer : Quantizer) (g : GifData) (q : Option PyNum) (lp : Option Int)
        (path : String),
      1 ≤ g.size.1 → 1 ≤ g.size.2 →
      (((g.frames.length : Int) * g.size.1 * g.size.2 > MAX_FRAME_PIXEL_BUDGET →
        compressGifOp quantizer g q lp path =
          (errorResponse "GIF_MEMORY_LIMIT" "GIF is too large to process safely",
            none, [])) ∧
       ((g.frames.length : Int) * g.size.1 * g.size.2 ≤ MAX_FRAME_PIXEL_BUDGET →
        assertFramePixelBudget g.frames.length g.size = .ok ()))) ∧
    (∀ (quantizer : Quantizer) (resampler : Resampler) (g : GifData)
        (w h : Option PyNum) (ma : Option Bool) (lp : Option Int) (path : String)
        (outW outH : Int),
      ¬(sanitizeDimension w ≤ 0 ∧ sanitizeDimension h ≤ 0) →
      resolveResizeSize (g.size.1, g.size.2) (sanitizeDimension w) (sanitizeDimension h)
          (ma.getD true) = .ok (outW, outH) →
      (((g.frames.length : Int) * max g.size.1 outW * max g.size.2 outH >
          MAX_FRAME_PIXEL_BUDGET →
        resizeGifOp quantizer resampler g w h ma lp path =
          (errorResponse "GIF_MEMORY_LIMIT" "GIF is too large to process safely",
            none, [])) ∧
       ((g.frames.length : Int) * max g.size.1 outW * max g.size.2 outH ≤
          MAX_FRAME_PIXEL_BUDGET →
        assertFramePixelBudget g.frames.length (max g.size.1 outW, max g.size.2 outH) =
          .ok ()))) := by
  constructor
  · intro quantizer g q lp path hw hh
    have hlen : ((extractGifFramesWithDisposal g).frames.length : Int) =
        (g.frames.length : Int) := by
      simp [extractGifFramesWithDisposal]
    constructor
    · intro hbig
      have hassert : assertFramePixelBudget (extractGifFramesWithDisposal g).frames.length
          g.size = .error .memoryError := by
        unfold assertFramePixelBudget
        rw [if_neg, if_neg, if_pos]
        · rw [hlen]
          exact hbig
        · omega
        · intro hfc
          rw [hlen] at hfc
          have h0 : (0 : Int) ≤ (g.frames.length : Int) := Int.natCast_nonneg _
          have hz : (g.frames.length : Int) = 0 := le_antisymm hfc h0
          rw [hz, zero_mul, zero_mul] at hbig
          exact absurd hbig (by decide)
      unfold compressGifOp
      dsimp only
      rw [hassert]
    · intro hsmall
      unfold assertFramePixelBudget
      split
      · rfl
      · rw [if_neg (by omega), if_neg (by omega)]
  · intro quantizer resampler g w h ma lp path outW outH hne hres
    obtain ⟨hoW, hoH⟩ := resolveResizeSize_pos _ _ _ _ _ _ hres
    have hlen : ((extractGifFramesWithDisposal g).frames.length : Int) =
        (g.frames.length : Int) := by
      simp [extractGifFramesWithDisposal]
    constructor
    · intro hbig
      have hassert : assertFramePixelBudget (extractGifFramesWithDisposal g).frames.length
          (max g.size.1 outW, max g.size.2 outH) = .error .memoryError := by
        unfold assertFramePixelBudget
        rw [if_neg, if_neg, if_pos]
        · rw [hlen]
          exact hbig
        · dsimp only
          have h1 : (1 : Int) ≤ max g.size.1 outW := le_trans hoW (le_max_right _ _)
          have h2 : (1 : Int) ≤ max g.size.2 outH := le_trans hoH (le_max_right _ _)
          omega
        · intro hfc
          rw [hlen] at hfc
          have h0 : (0 : Int) ≤ (g.frames.length : Int) := Int.natCast_nonneg _
          have hz : (g.frames.length : Int) = 0 := le_antisymm hfc h0
          rw [hz, zero_mul, zero_mul] at hbig
          exact absurd hbig (by decide)
      unfold resizeGifOp
      dsimp only
      rw [if_neg hne, hres]
      dsimp only
      rw [hassert]
    · intro hsmall
      have h1 : (1 : Int) ≤ max g.size.1 outW := le_trans hoW (le_max_right _ _)
      have h2 : (1 : Int) ≤ max g.size.2 outH := le_trans hoH (le_max_right _ _)
      unfold assertFramePixelBudget
      split
      · rfl
      · dsimp only
        rw [if_neg (by omega), if_neg (by omega)]

/-- C2, witness for `budget_guard_amended`: a one-frame 12001×10001 GIF
exceeds the budget on `compress`, and a one-frame 10×10 GIF resized to 5×5
passes the check. -/
theorem budget_guard_witness :
    (1 : Int) ≤ 12001 ∧
    ((1 : Nat) : Int) * 12001 * 10001 > MAX_FRAME_PIXEL_BUDGET ∧
    compressGifOp (fun frame _ => (frame.map (fun _ => 0), []))
        ⟨[⟨[], none, none⟩], (12001, 10001), none, none⟩ none none "big.gif" =
      (errorResponse "GIF_MEMORY_LIMIT" "GIF is too large to process safely", none, []) ∧
    ¬(sanitizeDimension (some ⟨5, 1⟩) ≤ 0 ∧ sanitizeDimension none ≤ 0) ∧
    ((1 : Nat) : Int) * max 10 5 * max 10 5 ≤ MAX_FRAME_PIXEL_BUDGET ∧
    assertFramePixelBudget 1 (max 10 5, max 10 5) = .ok () :=
  ⟨by decide, by decide,
   ((budget_guard_amended.1 (fun frame _ => (frame.map (fun _ => 0), []))
      ⟨[⟨[], none, none⟩], (12001, 10001), none, none⟩ none none "big.gif"
      (by decide) (by decide)).1 (by decide)),
   by decide, by decide,
   ((budget_guard_amended.2 (fun frame _ => (frame.map (fun _ => 0), [])) (fun f _ _ => f)
      ⟨[⟨[], none, none⟩], (10, 10), none, none⟩ (some ⟨5, 1⟩) none none none "small.gif"
      5 5 (by decide) rfl).2 (by decide))⟩

/-! ## C5: quantizer transparency -/

theorem maskPaste_mem (frame : List RGBA) :
    ∀ (idxs : List Nat) (p : RGBA × Nat),
      p ∈ frame.zip (idxs.zipWith (fun idx m => if m = 0 then idx else 255)
        ((frame.map RGBA.a).map (fun a => if a ≤ 127 then (255 : Nat) else 0))) →
      p.1.a ≤ 127 → p.2 = 255 := by
  induction frame with
  | nil => intro idxs p hp; simp at hp
  | cons x fr ih =>
    intro idxs p hp hpa
    cases idxs with
    | nil => simp at hp
    | cons j js =>
      simp only [List.map_cons, List.zipWith_cons_cons, List.zip_cons_cons,
        List.mem_cons] at hp
      rcases hp with rfl | hp
      · dsimp only at hpa ⊢
        rw [if_neg]
        intro hmask
        rw [if_pos hpa] at hmask
        exact absurd hmask (by decide)
      · exact ih js p hp hpa

/-- C5 (confirmed): `_quantize_rgba_frame` computes the `alpha ≤ 127` mask
on the pre-quantization frame, forces every masked pixel to palette
index 255 regardless of what the codec's quantizer assigned, records 255 as
the frame's transparency index, and pads the palette to exactly 256 RGB
entries (768 bytes); consequently every pixel of the pre-quantization frame
with alpha ≤ 127 decodes fully transparent, and `compress` feeds its decoded
frames to exactly this quantization with transparency index 255.  The
hypotheses state the codec contract: one palette index per pixel and a
palette of at most 256 entries. -/
theorem quantize_transparency :
    ∀ (quantizer : Quantizer) (frame : List RGBA) (paletteSize : Int),
      (quantizer frame (max 2 (min 255 paletteSize))).1.length = frame.length →
      (quantizer frame (max 2 (min 255 paletteSize))).2.length ≤ 768 →
      (quantizeRgbaFrame quantizer frame paletteSize).transparency = 255 ∧
      (quantizeRgbaFrame quantizer frame paletteSize).palette.length = 768 ∧
      (quantizeRgbaFrame quantizer frame paletteSize).indexes.length = frame.length ∧
      (∀ p ∈ frame.zip (quantizeRgbaFrame quantizer frame paletteSize).indexes,
        p.1.a ≤ 127 → p.2 = 255) ∧
      (∀ p ∈ frame.zip (decodeIndexedFrame (quantizeRgbaFrame quantizer frame paletteSize)),
        p.1.a ≤ 127 → p.2.a = 0) ∧
      (∀ (g : GifData) (q : Option PyNum) (lp : Option Int) (path : String)
          (s : SavedAnim QuantizedFrame),
        (compressGifOp quantizer g q lp path).2.1 = some s →
        s.frames = (extractGifFramesWithDisposal g).frames.map
          (fun f => quantizeRgbaFrame quantizer f
            (qualityToPaletteSize (sanitizeQuality q))) ∧
        s.transparencyArg = some 255) := by
  intro quantizer frame paletteSize hlen hpal
  have hidx : ∀ p ∈ frame.zip (quantizeRgbaFrame quantizer frame paletteSize).indexes,
      p.1.a ≤ 127 → p.2 = 255 := by
    intro p hp hpa
    exact maskPaste_mem frame (quantizer frame (max 2 (min 255 paletteSize))).1 p hp hpa
  refine ⟨rfl, ?_, ?_, hidx, ?_, ?_⟩
  · unfold quantizeRgbaFrame
    dsimp only
    split
    · rename_i hlt
      rw [List.length_append, List.length_replicate]
      omega
    · rename_i hge
      omega
  · unfold quantizeRgbaFrame
    dsimp only
    rw [List.length_zipWith, List.length_map, List.length_map, hlen]
    exact min_self _
  · intro p hp hpa
    rw [decodeIndexedFrame, List.zip_map_right] at hp
    obtain ⟨⟨x, c⟩, hmem, rfl⟩ := List.mem_map.mp hp
    dsimp only [Prod.map_apply, id_eq] at hpa ⊢
    have hc := hidx (x, c) hmem hpa
    dsimp only at hc
    subst hc
    rw [decodeIndexedPixel]
    have ht : (quantizeRgbaFrame quantizer frame paletteSize).transparency = 255 := rfl
    rw [ht, if_pos rfl]
  · intro g q lp path s hs
    unfold compressGifOp at hs
    dsimp only at hs
    split at hs
    · exact absurd hs (by simp)
    · exact absurd hs (by simp)
    · injection hs with hs
      subst hs
      exact ⟨rfl, rfl⟩

/-- C5, witness for `quantize_transparency`: one pixel with alpha 5 under a
trivial codec that assigns index 0 and a 1-entry palette; the pixel is
forced to index 255 and decodes with alpha 0, and `compress` on a one-frame
GIF holding it routes the frame through this quantization. -/
theorem quantize_transparency_witness :
    ((fun (f : List RGBA) (_ : Int) => (f.map (fun _ => (0 : Nat)), [1, 2, 3]))
        [⟨9, 9, 9, 5⟩] (max 2 (min 255 64))).1.length = [(⟨9, 9, 9, 5⟩ : RGBA)].length ∧
    ((fun (f : List RGBA) (_ : Int) => (f.map (fun _ => (0 : Nat)), [1, 2, 3]))
        [⟨9, 9, 9, 5⟩] (max 2 (min 255 64))).2.length ≤ 768 ∧
    (quantizeRgbaFrame (fun f _ => (f.map (fun _ => 0), [1, 2, 3])) [⟨9, 9, 9, 5⟩]
      64).transparency = 255 ∧
    (quantizeRgbaFrame (fun f _ => (f.map (fun _ => 0), [1, 2, 3])) [⟨9, 9, 9, 5⟩]
      64).palette.length = 768 ∧
    ((⟨9, 9, 9, 5⟩ : RGBA).a ≤ 127 ∧
      ((⟨9, 9, 9, 5⟩ : RGBA), (⟨0, 0, 0, 0⟩ : RGBA)).2.a = 0) :=
  ⟨by decide, by decide,
   (quantize_transparency (fun f _ => (f.map (fun _ => 0), [1, 2, 3])) [⟨9, 9, 9, 5⟩] 64
      (by decide) (by decide)).1,
   (quantize_transparency (fun f _ => (f.map (fun _ => 0), [1, 2, 3])) [⟨9, 9, 9, 5⟩] 64
      (by decide) (by decide)).2.1,
   by decide,
   (quantize_transparency (fun f _ => (f.map (fun _ => 0), [1, 2, 3])) [⟨9, 9, 9, 5⟩] 64
      (by decide) (by decide)).2.2.2.2.1
     ((⟨9, 9, 9, 5⟩ : RGBA), (⟨0, 0, 0, 0⟩ : RGBA)) (by decide) (by decide)⟩

/-! ## C3: APNG timing correction -/

theorem apng_loop_map (data : List Nat) :
    ∀ (fuel offset : Nat),
      apngDurationsLoop data offset fuel =
        (apngFcTLPairs data offset fuel).map (fun p => apngDelayToMs p.1 p.2) := by
  intro fuel
  induction fuel with
  | zero => intro offset; simp [apngDurationsLoop, apngFcTLPairs]
  | succ n ih =>
    intro offset
    rw [apngDurationsLoop, apngFcTLPairs]
    dsimp only
    split
    · split
      · simp
      · split
        · simp only [List.map_cons]
          rw [ih]
        · exact ih _
    · simp

theorem extractApngDurations_ne_nil (data : List Nat) (l : List Int)
    (h : extractApngDurations data = some l) : l ≠ [] := by
  unfold extractApngDurations at h
  dsimp only at h
  split at h
  · exact absurd h (by simp)
  · split at h
    · exact absurd h (by simp)
    · rename_i hne
      injection h with h
      subst h
      exact hne

/-- C3, counterexample.  The claim says each fcTL delay pair maps to
`round(num / den * 1000)` milliseconds.  For a PNG whose single fcTL chunk
carries `delay_num = 1`, `delay_den = 65535`, that formula gives 0, but the
parser produces 1: the source clamps with `max(1, ...)`.  The byte list is
the 8-byte PNG signature, the 26-byte fcTL chunk (length, type, 20 payload
bytes, then the big-endian delay fields `1` and `65535`), and 4 CRC
bytes. -/
theorem apng_round_counterexample :
    extractApngDurations
        [137, 80, 78, 71, 13, 10, 26, 10,
         0, 0, 0, 26, 102, 99, 84, 76,
         0, 0, 0, 0, 0, 0, 0, 0, 0, 0, 0, 0, 0, 0, 0, 0, 0, 0, 0, 0,
         0, 1, 255, 255, 0, 0,
         0, 0, 0, 0] = some [1] ∧
    pyRoundDiv (1 * 1000) 65535 = 0 ∧ (1 : Int) ≠ 0 :=
  ⟨by decide, by decide, by decide⟩

/-- C3 (amended): the APNG timing parser maps each accepted fcTL chunk's
16-bit big-endian numerator/denominator pair — with denominator 0 treated as
100 and numerator 0 as 1 — to `max(1, round(num / den * 1000))` milliseconds
(the claim's formula clamped below by 1 ms); on the PNG read path the
corrected list replaces the decoded durations exactly when its length equals
the frame count, and a parse failure (`none`) keeps the decoded durations —
the read itself never fails. -/
theorem apng_timing_amended :
    (∀ (data : List Nat) (fuel offset : Nat),
      apngDurationsLoop data offset fuel =
        (apngFcTLPairs data offset fuel).map (fun p => apngDelayToMs p.1 p.2)) ∧
    (∀ num den : Nat,
      apngDelayToMs num den =
        max 1 (pyRoundDiv ((((if num = 0 then 1 else num) * 1000 : Nat)) : Int)
          (((if den = 0 then 100 else den : Nat)) : Int))) ∧
    (∀ (src : AnimSource) (requireAnimated : Bool) (e : ExtractedAnim) (data : List Nat),
      extractAnimationFrames src requireAnimated = .ok e →
      pyUpper src.format = "PNG" → src.fileBytes = some data →
      1 < src.frames.length →
      (∀ l, extractApngDurations data = some l →
        e.durations = if l.length = src.frames.length then l
          else decodedAnimDurations src) ∧
      (extractApngDurations data = none → e.durations = decodedAnimDurations src)) := by
  refine ⟨apng_loop_map, fun num den => rfl, ?_⟩
  intro src requireAnimated e data h hfmt hdata hcount
  unfold extractAnimationFrames at h
  dsimp only at h
  split at h
  · exact absurd h (by simp)
  · split at h
    · exact absurd h (by simp)
    · injection h with h
      subst h
      dsimp only
      rw [hdata]
      dsimp only
      have hwebp : ¬(pyUpper src.format = "WEBP" ∧
          (src.frames.map RawFrame.pixels).length > 1) := by
        rw [hfmt]
        intro hcontra
        exact absurd hcontra.1 (by decide)
      have hpng : pyUpper src.format = "PNG" ∧
          (src.frames.map RawFrame.pixels).length > 1 := by
        rw [hfmt, List.length_map]
        exact ⟨rfl, hcount⟩
      rw [if_neg hwebp, if_pos hpng]
      constructor
      · intro l hl
        rw [hl]
        unfold mergeParsedDurations
        dsimp only
        have hne := extractApngDurations_ne_nil data l hl
        rw [List.length_map]
        split
        · rename_i hc
          rw [if_pos hc.2]
        · rename_i hc
          rw [if_neg]
          intro hlen
          exact hc ⟨hne, hlen⟩
      · intro hl
        rw [hl]
        rfl

/-- C3, witness for `apng_timing_amended`: a two-frame animated PNG whose
raw bytes fail the signature check (empty buffer), so the decoded durations
are kept. -/
theorem apng_timing_witness :
    extractAnimationFrames ⟨"PNG", [⟨[], some 30, none⟩, ⟨[], none, none⟩], none, none,
        some []⟩ true =
      .ok ⟨[[], []], [30, 100], [0, 0], 0, "PNG"⟩ ∧
    pyUpper "PNG" = "PNG" ∧
    extractApngDurations [] = none ∧
    1 < ([⟨[], some 30, none⟩, ⟨[], none, none⟩] : List RawFrame).length ∧
    (⟨[[], []], [30, 100], [0, 0], 0, "PNG"⟩ : ExtractedAnim).durations =
      decodedAnimDurations ⟨"PNG", [⟨[], some 30, none⟩, ⟨[], none, none⟩], none, none,
        some []⟩ :=
  ⟨rfl, rfl, rfl, by decide,
   (apng_timing_amended.2.2 ⟨"PNG", [⟨[], some 30, none⟩, ⟨[], none, none⟩], none, none,
      some []⟩ true ⟨[[], []], [30, 100], [0, 0], 0, "PNG"⟩ [] rfl rfl rfl
      (by decide)).2 rfl⟩

/-! ## C8: response shape and error codes -/

/-- C8, counterexample.  The claim says every failure carries one of the
canonical codes `BAD_REQUEST`, ..., `UNSUPPORTED_ACTION`,
`CONVERT_BAD_FORMAT`, and that an unrecognized action returns
`UNSUPPORTED_ACTION`.  The source prefixes every code (and has additional
codes): an unrecognized action yields `GIF_UNSUPPORTED_ACTION`, which is not
in the canonical set. -/
theorem router_code_counterexample :
    handleRequest ⟨some "frobnicate", none, none, none, none, none, none, none, none,
        none, none, none, none, none, none, none, none⟩ allSuccessOps =
      errorResponse "GIF_UNSUPPORTED_ACTION" "Unsupported action: frobnicate" ∧
    "GIF_UNSUPPORTED_ACTION" ∉ specCanonicalCodes ∧
    (errorResponse "GIF_UNSUPPORTED_ACTION" "Unsupported action: frobnicate").success =
      false :=
  ⟨by decide, by decide, rfl⟩

set_option maxHeartbeats 2000000 in
/-- C8 (amended): every failed request yields a response of shape
`{success: false, error, error_code}` whose code is one of the source's
prefixed codes (`GIF_BAD_REQUEST`, `GIF_INPUT_NOT_FOUND`,
`GIF_UNSUPPORTED_IMAGE`, `GIF_MEMORY_LIMIT`, `GIF_RESIZE_INVALID_SIZE`,
`GIF_UNSUPPORTED_ACTION`, `ANIMATED_CONVERT_BAD_FORMAT`, the per-operation
`*_FAILED` codes, `GIF_EXPORT_EMPTY_SELECTION`, `GIF_BUILD_NO_INPUT`, ...),
given that each dispatched method keeps its own response discipline; an
unrecognized action returns `GIF_UNSUPPORTED_ACTION` with
`success = false`. -/
theorem router_codes_amended :
    ∀ (req : Request) (ops : OpsModel), opsWellBehaved ops →
      responseOk gifErrorCodes (handleRequest req ops) ∧
      (normalizeAction req.action ∉ knownActions →
        handleRequest req ops =
          errorResponse "GIF_UNSUPPORTED_ACTION"
            ("Unsupported action: " ++ normalizeAction req.action)) := by
  intro req ops hops
  obtain ⟨h1, h2, h3, h4, h5, h6, h7, h8⟩ := hops
  have herr : ∀ code msg, code ∈ gifErrorCodes →
      responseOk gifErrorCodes (errorResponse code msg) := by
    intro code msg hc
    exact Or.inr ⟨rfl, rfl, code, rfl, hc⟩
  constructor
  · unfold handleRequest
    dsimp only
    split_ifs <;>
      first
        | exact herr _ _ (by decide)
        | exact responseOk_mono (h1 _) (by decide)
        | exact responseOk_mono (h2 _ _ _ _) (by decide)
        | exact responseOk_mono (h3 _ _ _) (by decide)
        | exact responseOk_mono (h4 _ _ _ _) (by decide)
        | exact responseOk_mono (h5 _ _ _ _) (by decide)
        | exact responseOk_mono (h6 _ _ _ _ _ _) (by decide)
        | exact responseOk_mono (h7 _ _ _ _) (by decide)
        | (split
           · exact herr _ _ (by decide)
           · exact responseOk_mono (h8 _ _ _ _ _) (by decide))
  · intro hunk
    simp only [knownActions, List.mem_cons, List.not_mem_nil, or_false, not_or] at hunk
    obtain ⟨n1, n2, n3, n4, n5, n6, n7, n8⟩ := hunk
    unfold handleRequest
    dsimp only
    rw [if_neg n1, if_neg n2, if_neg n3, if_neg n4, if_neg n5, if_neg n6, if_neg n7,
      if_neg n8]

set_option maxHeartbeats 1000000 in
/-- C8, witness for `router_codes_amended` at an unrecognized action under
all-success operations. -/
theorem router_codes_witness :
    normalizeAction (some "frobnicate") ∉ knownActions ∧
    handleRequest ⟨some "frobnicate", none, none, none, none, none, none, none, none,
        none, none, none, none, none, none, none, none⟩ allSuccessOps =
      errorResponse "GIF_UNSUPPORTED_ACTION"
        ("Unsupported action: " ++ normalizeAction (some "frobnicate")) :=
  ⟨by decide,
   (router_codes_amended ⟨some "frobnicate", none, none, none, none, none, none, none,
      none, none, none, none, none, none, none, none, none⟩ allSuccessOps
      allSuccessOps_wellBehaved).2 (by decide)⟩

end Imageflow
